/-
Verification of the LMSR (Logarithmic Market Scoring Rule) pricing engine
of the nitro_predection repository (class `LMSRPricer`).

The engine works on JavaScript `bigint` values (arbitrary-precision
integers); we embed them as `ℤ`.  JavaScript `bigint` division truncates
toward zero, which is exactly `Int.tdiv`, so every `/` of the source is
translated to `Int.tdiv`.  Fixed-point scale is 10^18.

Two source constants go through JavaScript `Number` (IEEE-754 binary64)
before being converted to `bigint`, and are therefore rounded:
  * `BigInt(693147180559945309)` — the literal is a `Number`; the nearest
    binary64 value is 693147180559945344 (spacing 128 at that magnitude),
    so the engine's ln(2) constant is actually 693147180559945344.
  * `BigInt(2**256 - 1)` — `2**256 - 1` is computed in binary64 and rounds
    to 2^256 exactly, so the overflow guard value is 2^256.

Methods that can throw (`ln`, `log2`, and everything that calls them) are
embedded with `Option`: `none` is the thrown domain error.

The two `while` loops (`log2`, `sqrt`) and the bounded binary search of
`calculateShares` are embedded with an explicit fuel argument so that all
definitions are kernel-executable; for the two `while` loops the fuel
`x.toNat` is proved sufficient (fuel-irrelevance lemmas below), and the
binary search's fuel 50 is the source's own `maxIterations = 50`.
-/
import Mathlib

set_option maxRecDepth 40000

namespace LMSRPricer

/-- `expApprox(x)`: 5-term Taylor series for e^x on 10^18-scaled values.
Source: `if (x === 0n) return 10^18; if (x >= 42n*10^18) return BigInt(2**256-1)`
(which is 2^256, see file header), then `result = 10^18 + x + x²/2! + …`. -/
def expApprox (x : ℤ) : ℤ :=
  if x = 0 then 1000000000000000000
  else if 42 * 1000000000000000000 ≤ x then 2 ^ 256
  else
    let t1 := x
    let r1 := 1000000000000000000 + t1
    let t2 := (t1 * x).tdiv (2 * 1000000000000000000)
    let r2 := r1 + t2
    let t3 := (t2 * x).tdiv (3 * 1000000000000000000)
    let r3 := r2 + t3
    let t4 := (t3 * x).tdiv (4 * 1000000000000000000)
    let r4 := r3 + t4
    let t5 := (t4 * x).tdiv (5 * 1000000000000000000)
    r4 + t5

/-- The `while (y >= 2*10^18) { y /= 2; result += 10^18 }` loop of `log2`,
with fuel.  Returns (accumulated result, final y).  One halving consumes one
unit of fuel, so any fuel ≥ the number of halvings gives the loop's value
(`log2go_congr` below); `log2` calls it with fuel `x.toNat`, which is
always sufficient. -/
def log2go : ℕ → ℤ → ℤ × ℤ
  | 0, y => (0, y)
  | f + 1, y =>
    if 2 * 1000000000000000000 ≤ y then
      let p := log2go f (y.tdiv 2)
      (p.1 + 1000000000000000000, p.2)
    else (0, y)

/-- The trailing fractional-correction block of the source's `log2`: adds
`5n * 10n**17n` to the result when the loop remainder `y` is
`>= 15n * 10n**17n`, else `32n * 10n**16n` when `y >= 125n * 10n**16n`,
else nothing. -/
def log2frac (y : ℤ) : ℤ :=
  if 15 * 100000000000000000 ≤ y then 5 * 100000000000000000
  else if 125 * 10000000000000000 ≤ y then 32 * 10000000000000000
  else 0

/-- `log2(x)`: throws (`none`) for x ≤ 0; integer part by repeated halving
(`log2go`), then the two-bucket fractional correction (`log2frac`) on the
loop's final `y`. -/
def log2 (x : ℤ) : Option ℤ :=
  if x ≤ 0 then none
  else
    let p := log2go x.toNat x
    some (p.1 + log2frac p.2)

/-- `ln(x) = log2(x) · ln(2)`; throws (`none`) for x ≤ 0; returns exactly 0
for x = 10^18.  The ln(2) constant is 693147180559945344 (file header). -/
def ln (x : ℤ) : Option ℤ :=
  if x ≤ 0 then none
  else if x = 1000000000000000000 then some 0
  else (log2 x).map fun l => (l * 693147180559945344).tdiv 1000000000000000000

/-- The `while (z < y) { y = z; z = (x/z + z)/2 }` loop of `sqrt`, with
fuel.  `y` strictly decreases every iteration, so fuel `x.toNat` (the
initial `y`) is always sufficient. -/
def sqrtGo : ℕ → ℤ → ℤ → ℤ → ℤ
  | 0, _, _, y => y
  | f + 1, x, z, y => if z < y then sqrtGo f x ((x.tdiv z + z).tdiv 2) z else y

/-- `sqrt(x)`: Babylonian method, `z = (x+1)/2, y = x`, iterate while
`z < y`, return `y`.  Returns 0 for x = 0. -/
def sqrt (x : ℤ) : ℤ :=
  if x = 0 then 0 else sqrtGo x.toNat x ((x + 1).tdiv 2) x

/-- `getCost(qYes, qNo, b) = b·ln(e^(qYes/b) + e^(qNo/b))`, special-casing
`qYes = qNo = 0` to `b·ln(2·10^18)/10^18`. -/
def getCost (qYes qNo b : ℤ) : Option ℤ :=
  if qYes = 0 ∧ qNo = 0 then
    (ln (2 * 1000000000000000000)).map fun l => (b * l).tdiv 1000000000000000000
  else
    let expYes := expApprox ((qYes * 1000000000000000000).tdiv b)
    let expNo := expApprox ((qNo * 1000000000000000000).tdiv b)
    (ln (expYes + expNo)).map fun l => (b * l).tdiv 1000000000000000000

/-- `getPrice(qYes, qNo, b)`: marginal prices; `(0.5, 0.5)` at the all-zero
state and as fallback when the sum of exponentials is 0. -/
def getPrice (qYes qNo b : ℤ) : ℤ × ℤ :=
  if qYes = 0 ∧ qNo = 0 then (5 * 100000000000000000, 5 * 100000000000000000)
  else
    let expYes := expApprox ((qYes * 1000000000000000000).tdiv b)
    let expNo := expApprox ((qNo * 1000000000000000000).tdiv b)
    let sumExp := expYes + expNo
    if sumExp = 0 then (5 * 100000000000000000, 5 * 100000000000000000)
    else ((expYes * 1000000000000000000).tdiv sumExp,
          (expNo * 1000000000000000000).tdiv sumExp)

/-- The binary-search loop of `calculateShares` (`while (low < high &&
iterations < maxIterations)`); the fuel is the source's own iteration
counter with `maxIterations = 50`.  A thrown domain error inside
`getCost` propagates (`none`). -/
def sharesGo (isYes : Bool) (qYes qNo b targetCost : ℤ) : ℕ → ℤ → ℤ → Option ℤ
  | 0, low, _ => some low
  | f + 1, low, high =>
    if low < high then
      let mid := (low + high).tdiv 2
      let newQYes := if isYes then qYes + mid else qYes
      let newQNo := if isYes then qNo else qNo + mid
      match getCost newQYes newQNo b with
      | none => none
      | some newCost =>
        if newCost < targetCost then sharesGo isYes qYes qNo b targetCost f (mid + 1) high
        else sharesGo isYes qYes qNo b targetCost f low mid
    else some low

/-- `calculateShares(payAmount, isYes, qYes, qNo, b)`: binary search over
`[0, payAmount·10]` for the share count whose cost reaches
`getCost(q) + payAmount`, capped at 50 iterations; returns `low`. -/
def calculateShares (payAmount : ℤ) (isYes : Bool) (currentQYes currentQNo b : ℤ) : Option ℤ :=
  (getCost currentQYes currentQNo b).bind fun currentCost =>
    sharesGo isYes currentQYes currentQNo b (currentCost + payAmount) 50 0 (payAmount * 10)

/-- Result record of `previewTrade` (the `TradePreview` interface). -/
structure TradePreview where
  expectedShares : ℤ
  newPrice : ℤ
  priceImpact : ℤ
  avgPrice : ℤ
  fee : ℤ
  netAmount : ℤ
deriving DecidableEq

/-- `previewTrade(payAmount, isYes, qYes, qNo, b, feeRate)`:
`fee = payAmount·feeRate/10000`, shares computed on the net amount,
new/current prices, price impact and average price. -/
def previewTrade (payAmount : ℤ) (isYes : Bool) (currentQYes currentQNo currentB feeRate : ℤ) :
    Option TradePreview :=
  let fee := (payAmount * feeRate).tdiv 10000
  let netAmount := payAmount - fee
  (calculateShares netAmount isYes currentQYes currentQNo currentB).map fun expectedShares =>
    let newQYes := if isYes then currentQYes + expectedShares else currentQYes
    let newQNo := if isYes then currentQNo else currentQNo + expectedShares
    let newPrices := getPrice newQYes newQNo currentB
    let newPrice := if isYes then newPrices.1 else newPrices.2
    let currentPrices := getPrice currentQYes currentQNo currentB
    let currentPrice := if isYes then currentPrices.1 else currentPrices.2
    let priceImpact :=
      if 0 < currentPrice then ((newPrice - currentPrice) * 1000000000000000000).tdiv currentPrice
      else 0
    let avgPrice :=
      if 0 < expectedShares then (netAmount * 1000000000000000000).tdiv expectedShares
      else 0
    ⟨expectedShares, newPrice, priceImpact, avgPrice, fee, netAmount⟩

/-- The `LMSRParams` configuration interface of `types.ts`: base liquidity
`b0`, volume scaling factor `alpha`, transaction-count scaling factor
`beta`, reference volume `V0`. -/
structure LMSRParams where
  b0 : ℤ
  alpha : ℤ
  beta : ℤ
  V0 : ℤ

/-- `calculateB(totalVolume, txCount) = b0·(1 + alpha·sqrt(volume/V0) +
beta·ln(1+txCount))`, returning `b0` when both arguments are 0. -/
def calculateB (params : LMSRParams) (totalVolume txCount : ℤ) : Option ℤ :=
  if totalVolume = 0 ∧ txCount = 0 then some params.b0
  else
    let volumeRatio := (totalVolume * 1000000000000000000).tdiv params.V0
    let sqrtVolume := sqrt volumeRatio
    (ln (1000000000000000000 + txCount * 1000000000000000000)).map fun lnTxCount =>
      let multiplier := 1000000000000000000 +
        (params.alpha * sqrtVolume).tdiv 1000000000000000000 +
        (params.beta * lnTxCount).tdiv 1000000000000000000
      (params.b0 * multiplier).tdiv 1000000000000000000

/-- `DEFAULT_LMSR_PARAMS` from `types.ts`:
`b0 = BigInt(100)*BigInt(10**18)`, `alpha = BigInt(5)*BigInt(10**16)`,
`beta = BigInt(2)*BigInt(10**16)`, `V0 = BigInt(1000000)*BigInt(10**18)`
(all four `BigInt(Number)` conversions are exact: 10^16 and 10^18 are
representable in binary64). -/
def DEFAULT_LMSR_PARAMS : LMSRParams :=
  ⟨100 * 1000000000000000000, 5 * 10000000000000000,
   2 * 10000000000000000, 1000000 * 1000000000000000000⟩

/-- `validateState(qYes, qNo, b)`: rejects `qYes < 0`, `qNo < 0`, `b ≤ 0`,
otherwise checks `|priceSum − 10^18| < 10^15`.  The source compares
`Math.abs(Number(priceSum − 10^18)) < Number(10^15)`; every value reaching
that conversion satisfies `|priceSum − 10^18| ≤ 1` (proved below), and
binary64 conversion is exact on such integers (and on 10^15 < 2^53), so the
comparison is embedded as the exact integer comparison. -/
def validateState (qYes qNo b : ℤ) : Bool :=
  if qYes < 0 ∨ qNo < 0 ∨ b ≤ 0 then false
  else
    let prices := getPrice qYes qNo b
    let priceSum := prices.1 + prices.2
    decide (|priceSum - 1000000000000000000| < 1000000000000000)

/-! ### Toolkit: truncating division on non-negative operands -/

theorem tdivNonneg {a b : ℤ} (h1 : 0 ≤ a) (h2 : 0 ≤ b) : 0 ≤ a.tdiv b := by
  rw [Int.tdiv_eq_ediv h1 h2]
  exact Int.ediv_nonneg h1 h2

theorem tdivMono {a b c : ℤ} (h1 : 0 ≤ a) (h2 : a ≤ b) (h3 : 0 < c) :
    a.tdiv c ≤ b.tdiv c := by
  rw [Int.tdiv_eq_ediv h1 h3.le, Int.tdiv_eq_ediv (h1.trans h2) h3.le]
  exact Int.ediv_le_ediv h3 h2

theorem stepNonneg {t x c : ℤ} (ht : 0 ≤ t) (hx : 0 ≤ x) (hc : 0 ≤ c) :
    0 ≤ (t * x).tdiv c :=
  tdivNonneg (mul_nonneg ht hx) hc

theorem stepMono {t t' x x' c : ℤ} (ht : 0 ≤ t) (ht' : t ≤ t') (hx : 0 ≤ x) (hx' : x ≤ x')
    (hc : 0 < c) : (t * x).tdiv c ≤ (t' * x').tdiv c :=
  tdivMono (mul_nonneg ht hx) (mul_le_mul ht' hx' hx (ht.trans ht')) hc

/-! ### expApprox: Taylor terms and their bounds -/

/-- Second Taylor term of `expApprox` (`x²/2!`), named for the lemmas below. -/
def exp2 (x : ℤ) : ℤ := (x * x).tdiv (2 * 1000000000000000000)

/-- Third Taylor term (`x³/3!`). -/
def exp3 (x : ℤ) : ℤ := (exp2 x * x).tdiv (3 * 1000000000000000000)

/-- Fourth Taylor term (`x⁴/4!`). -/
def exp4 (x : ℤ) : ℤ := (exp3 x * x).tdiv (4 * 1000000000000000000)

/-- Fifth Taylor term (`x⁵/5!`). -/
def exp5 (x : ℤ) : ℤ := (exp4 x * x).tdiv (5 * 1000000000000000000)

theorem expApprox_eq {x : ℤ} (h0 : ¬ x = 0) (h42 : ¬ 42 * 1000000000000000000 ≤ x) :
    expApprox x = 1000000000000000000 + x + exp2 x + exp3 x + exp4 x + exp5 x := by
  rw [expApprox, if_neg h0, if_neg h42]
  rfl

theorem exp2_nonneg {x : ℤ} (hx : 0 ≤ x) : 0 ≤ exp2 x := stepNonneg hx hx (by omega)

theorem exp3_nonneg {x : ℤ} (hx : 0 ≤ x) : 0 ≤ exp3 x :=
  stepNonneg (exp2_nonneg hx) hx (by omega)

theorem exp4_nonneg {x : ℤ} (hx : 0 ≤ x) : 0 ≤ exp4 x :=
  stepNonneg (exp3_nonneg hx) hx (by omega)

theorem exp5_nonneg {x : ℤ} (hx : 0 ≤ x) : 0 ≤ exp5 x :=
  stepNonneg (exp4_nonneg hx) hx (by omega)

theorem exp2_mono {x y : ℤ} (hx : 0 ≤ x) (h : x ≤ y) : exp2 x ≤ exp2 y :=
  stepMono hx h hx h (by omega)

theorem exp3_mono {x y : ℤ} (hx : 0 ≤ x) (h : x ≤ y) : exp3 x ≤ exp3 y :=
  stepMono (exp2_nonneg hx) (exp2_mono hx h) hx h (by omega)

theorem exp4_mono {x y : ℤ} (hx : 0 ≤ x) (h : x ≤ y) : exp4 x ≤ exp4 y :=
  stepMono (exp3_nonneg hx) (exp3_mono hx h) hx h (by omega)

theorem exp5_mono {x y : ℤ} (hx : 0 ≤ x) (h : x ≤ y) : exp5 x ≤ exp5 y :=
  stepMono (exp4_nonneg hx) (exp4_mono hx h) hx h (by omega)

/-- Lower bound: `expApprox` of a non-negative argument is at least 10^18. -/
theorem expApprox_ge {x : ℤ} (hx : 0 ≤ x) : 1000000000000000000 ≤ expApprox x := by
  by_cases h0 : x = 0
  · rw [expApprox, if_pos h0]
  by_cases h42 : 42 * 1000000000000000000 ≤ x
  · rw [expApprox, if_neg h0, if_pos h42]
    decide
  · rw [expApprox_eq h0 h42]
    have := exp2_nonneg hx
    have := exp3_nonneg hx
    have := exp4_nonneg hx
    have := exp5_nonneg hx
    omega

theorem exp2_le {x : ℤ} (hx : 0 ≤ x) (h : x ≤ 42 * 1000000000000000000) :
    exp2 x ≤ 882 * 1000000000000000000 := by
  have h1 : exp2 x ≤ ((42 * 1000000000000000000 : ℤ) * (42 * 1000000000000000000)).tdiv
      (2 * 1000000000000000000) := stepMono hx h hx h (by omega)
  have h2 : ((42 * 1000000000000000000 : ℤ) * (42 * 1000000000000000000)).tdiv
      (2 * 1000000000000000000) = 882 * 1000000000000000000 := by decide
  omega

theorem exp3_le {x : ℤ} (hx : 0 ≤ x) (h : x ≤ 42 * 1000000000000000000) :
    exp3 x ≤ 12348 * 1000000000000000000 := by
  have h1 : exp3 x ≤ ((882 * 1000000000000000000 : ℤ) * (42 * 1000000000000000000)).tdiv
      (3 * 1000000000000000000) :=
    stepMono (exp2_nonneg hx) (exp2_le hx h) hx h (by omega)
  have h2 : ((882 * 1000000000000000000 : ℤ) * (42 * 1000000000000000000)).tdiv
      (3 * 1000000000000000000) = 12348 * 1000000000000000000 := by decide
  omega

theorem exp4_le {x : ℤ} (hx : 0 ≤ x) (h : x ≤ 42 * 1000000000000000000) :
    exp4 x ≤ 129654 * 1000000000000000000 := by
  have h1 : exp4 x ≤ ((12348 * 1000000000000000000 : ℤ) * (42 * 1000000000000000000)).tdiv
      (4 * 1000000000000000000) :=
    stepMono (exp3_nonneg hx) (exp3_le hx h) hx h (by omega)
  have h2 : ((12348 * 1000000000000000000 : ℤ) * (42 * 1000000000000000000)).tdiv
      (4 * 1000000000000000000) = 129654 * 1000000000000000000 := by decide
  omega

theorem exp5_le {x : ℤ} (hx : 0 ≤ x) (h : x ≤ 42 * 1000000000000000000) :
    exp5 x ≤ 1089094 * 1000000000000000000 := by
  have h1 : exp5 x ≤ ((129654 * 1000000000000000000 : ℤ) * (42 * 1000000000000000000)).tdiv
      (5 * 1000000000000000000) :=
    stepMono (exp4_nonneg hx) (exp4_le hx h) hx h (by omega)
  have h2 : ((129654 * 1000000000000000000 : ℤ) * (42 * 1000000000000000000)).tdiv
      (5 * 1000000000000000000) = 1089093600000000000000000 := by decide
  omega

/-- Upper bound below the overflow guard: the Taylor value never exceeds the
saturation value 2^256. -/
theorem expApprox_le_sat {x : ℤ} (hx : 0 ≤ x) (h : x ≤ 42 * 1000000000000000000) :
    expApprox x ≤ 2 ^ 256 := by
  by_cases h0 : x = 0
  · rw [expApprox, if_pos h0]
    decide
  by_cases h42 : 42 * 1000000000000000000 ≤ x
  · rw [expApprox, if_neg h0, if_pos h42]
  · rw [expApprox_eq h0 h42]
    have := exp2_le hx h
    have := exp3_le hx h
    have := exp4_le hx h
    have := exp5_le hx h
    have h256 : (1232021 : ℤ) * 1000000000000000000 + 1000000000000000000 ≤ 2 ^ 256 := by decide
    omega

/-- `expApprox` is monotone on non-negative arguments. -/
theorem expApprox_mono {x y : ℤ} (hx : 0 ≤ x) (hxy : x ≤ y) : expApprox x ≤ expApprox y := by
  by_cases hy42 : 42 * 1000000000000000000 ≤ y
  · have hy0 : ¬ y = 0 := by omega
    have hy : expApprox y = 2 ^ 256 := by rw [expApprox, if_neg hy0, if_pos hy42]
    rw [hy]
    by_cases hx42 : 42 * 1000000000000000000 ≤ x
    · have hx0 : ¬ x = 0 := by omega
      have : expApprox x = 2 ^ 256 := by rw [expApprox, if_neg hx0, if_pos hx42]
      omega
    · exact expApprox_le_sat hx (by omega)
  · by_cases h0 : x = 0
    · have hx0 : expApprox x = 1000000000000000000 := by rw [expApprox, if_pos h0]
      rw [hx0]
      exact expApprox_ge (hx.trans hxy)
    have hy0 : ¬ y = 0 := by omega
    rw [expApprox_eq h0 (by omega), expApprox_eq hy0 hy42]
    have := exp2_mono hx hxy
    have := exp3_mono hx hxy
    have := exp4_mono hx hxy
    have := exp5_mono hx hxy
    omega

/-! ### log2: loop lemmas, fuel irrelevance, monotonicity -/

theorem log2go_low {y : ℤ} (h : y < 2 * 1000000000000000000) (f : ℕ) :
    log2go f y = (0, y) := by
  cases f with
  | zero => rfl
  | succ f => rw [log2go, if_neg (by omega)]

theorem log2go_high {y : ℤ} (h : 2 * 1000000000000000000 ≤ y) (f : ℕ) :
    log2go (f + 1) y =
      ((log2go f (y.tdiv 2)).1 + 1000000000000000000, (log2go f (y.tdiv 2)).2) := by
  rw [log2go, if_pos h]

theorem halve_toNat_lt {y : ℤ} (h : 2 * 1000000000000000000 ≤ y) :
    (y.tdiv 2).toNat < y.toNat := by
  rw [Int.tdiv_eq_ediv (by omega) (by omega)]
  omega

theorem log2go_congr : ∀ (f₁ f₂ : ℕ) (y : ℤ), y.toNat ≤ f₁ → y.toNat ≤ f₂ →
    log2go f₁ y = log2go f₂ y := by
  intro f₁
  induction f₁ with
  | zero =>
    intro f₂ y h1 h2
    have hy : y < 2 * 1000000000000000000 := by omega
    rw [log2go_low hy, log2go_low hy]
  | succ f ih =>
    intro f₂ y h1 h2
    by_cases hy : 2 * 1000000000000000000 ≤ y
    · cases f₂ with
      | zero => omega
      | succ f₂ =>
        rw [log2go_high hy, log2go_high hy]
        have hlt := halve_toNat_lt hy
        rw [ih f₂ (y.tdiv 2) (by omega) (by omega)]
    · rw [log2go_low (by omega), log2go_low (by omega)]

theorem log2go_fst_nonneg : ∀ (f : ℕ) (y : ℤ), 0 ≤ (log2go f y).1 := by
  intro f
  induction f with
  | zero => intro y; exact le_refl 0
  | succ f ih =>
    intro y
    by_cases hy : 2 * 1000000000000000000 ≤ y
    · rw [log2go_high hy]
      have := ih (y.tdiv 2)
      simp only []
      omega
    · rw [log2go_low (by omega)]

theorem log2frac_nonneg (y : ℤ) : 0 ≤ log2frac y := by
  unfold log2frac
  split_ifs <;> omega

theorem log2frac_le (y : ℤ) : log2frac y ≤ 5 * 100000000000000000 := by
  unfold log2frac
  split_ifs <;> omega

theorem log2frac_mono {y y' : ℤ} (h : y ≤ y') : log2frac y ≤ log2frac y' := by
  unfold log2frac
  split_ifs <;> omega

theorem log2_eq_go {x : ℤ} (h : 0 < x) :
    log2 x = some ((log2go x.toNat x).1 + log2frac (log2go x.toNat x).2) := by
  rw [log2, if_neg (by omega)]

theorem log2_eq_none_iff {x : ℤ} : log2 x = none ↔ x ≤ 0 := by
  by_cases h : x ≤ 0
  · simp [log2, h]
  · simp [log2, h]

theorem log2_total {x : ℤ} (h : 0 < x) : ∃ v, log2 x = some v :=
  ⟨_, log2_eq_go h⟩

theorem log2_nonneg {x v : ℤ} (h : log2 x = some v) : 0 ≤ v := by
  by_cases hx : 0 < x
  · rw [log2_eq_go hx] at h
    have h1 := log2go_fst_nonneg x.toNat x
    have h2 := log2frac_nonneg (log2go x.toNat x).2
    simp only [Option.some_inj] at h
    omega
  · rw [show log2 x = none from log2_eq_none_iff.mpr (by omega)] at h
    exact absurd h (by simp)

theorem log2_small {x : ℤ} (h0 : 0 < x) (h : x < 125 * 10000000000000000) :
    log2 x = some 0 := by
  rw [log2_eq_go h0, log2go_low (by omega)]
  unfold log2frac
  rw [if_neg (by omega), if_neg (by omega)]
  simp

theorem log2_step {x : ℤ} (h : 2 * 1000000000000000000 ≤ x) :
    log2 x = (log2 (x.tdiv 2)).map (fun w => w + 1000000000000000000) := by
  have hx : 0 < x := by omega
  have hlt := halve_toNat_lt h
  have hx2 : 0 < x.tdiv 2 := by
    rw [Int.tdiv_eq_ediv (by omega) (by omega)]
    omega
  rw [log2_eq_go hx, log2_eq_go hx2]
  obtain ⟨f, hf⟩ : ∃ f, x.toNat = f + 1 := ⟨x.toNat - 1, by omega⟩
  rw [hf, log2go_high h]
  rw [log2go_congr f ((x.tdiv 2).toNat) (x.tdiv 2) (by omega) (le_refl _)]
  simp only [Option.map_some']
  rw [Option.some_inj]
  omega

theorem log2_mono_aux : ∀ (n : ℕ) (x₁ x₂ v₁ v₂ : ℤ), x₂.toNat ≤ n → 0 < x₁ → x₁ ≤ x₂ →
    log2 x₁ = some v₁ → log2 x₂ = some v₂ → v₁ ≤ v₂ := by
  intro n
  induction n with
  | zero => intro x₁ x₂ v₁ v₂ hn h1 h12 _ _; omega
  | succ n ih =>
    intro x₁ x₂ v₁ v₂ hn h1 h12 e1 e2
    by_cases hx2 : 2 * 1000000000000000000 ≤ x₂
    · rw [log2_step hx2] at e2
      obtain ⟨w₂, hw₂, hv₂⟩ := Option.map_eq_some'.mp e2
      by_cases hx1 : 2 * 1000000000000000000 ≤ x₁
      · rw [log2_step hx1] at e1
        obtain ⟨w₁, hw₁, hv₁⟩ := Option.map_eq_some'.mp e1
        have hmono : x₁.tdiv 2 ≤ x₂.tdiv 2 := tdivMono (by omega) h12 (by omega)
        have hpos : 0 < x₁.tdiv 2 := by
          rw [Int.tdiv_eq_ediv (by omega) (by omega)]
          omega
        have hfuel : (x₂.tdiv 2).toNat ≤ n := by
          have := halve_toNat_lt hx2
          omega
        have := ih (x₁.tdiv 2) (x₂.tdiv 2) w₁ w₂ hfuel hpos hmono hw₁ hw₂
        omega
      · rw [log2_eq_go h1, log2go_low (by omega)] at e1
        simp only [Option.some_inj] at e1
        have hb := log2frac_le x₁
        have hn2 := log2_nonneg hw₂
        omega
    · rw [log2_eq_go h1, log2go_low (by omega)] at e1
      rw [log2_eq_go (by omega), log2go_low (by omega)] at e2
      simp only [Option.some_inj] at e1 e2
      have := log2frac_mono h12
      omega

theorem log2_mono {x₁ x₂ v₁ v₂ : ℤ} (h1 : 0 < x₁) (h12 : x₁ ≤ x₂)
    (e1 : log2 x₁ = some v₁) (e2 : log2 x₂ = some v₂) : v₁ ≤ v₂ :=
  log2_mono_aux x₂.toNat x₁ x₂ v₁ v₂ (le_refl _) h1 h12 e1 e2

/-! ### ln lemmas -/

theorem ln_eq_none_iff {x : ℤ} : ln x = none ↔ x ≤ 0 := by
  by_cases h : x ≤ 0
  · simp [ln, h]
  · by_cases hS : x = 1000000000000000000
    · simp [ln, h, hS]
    · obtain ⟨v, hv⟩ := log2_total (show (0:ℤ) < x by omega)
      simp [ln, h, hS, hv]

theorem ln_total {x : ℤ} (h : 0 < x) : ∃ v, ln x = some v := by
  cases hv : ln x with
  | none => exact absurd (ln_eq_none_iff.mp hv) (by omega)
  | some v => exact ⟨v, rfl⟩

theorem ln_nonneg {x v : ℤ} (h : ln x = some v) : 0 ≤ v := by
  unfold ln at h
  split_ifs at h with h1 h2
  · simp only [Option.some_inj] at h
    omega
  · obtain ⟨w, hw, hv⟩ := Option.map_eq_some'.mp h
    rw [← hv]
    exact tdivNonneg (mul_nonneg (log2_nonneg hw) (by omega)) (by omega)

theorem ln_one_val : ln 1000000000000000000 = some 0 := by decide

theorem ln_mono {x₁ x₂ v₁ v₂ : ℤ} (h1 : 0 < x₁) (h12 : x₁ ≤ x₂)
    (e1 : ln x₁ = some v₁) (e2 : ln x₂ = some v₂) : v₁ ≤ v₂ := by
  by_cases hS1 : x₁ = 1000000000000000000
  · rw [ln, if_neg (by omega), if_pos hS1] at e1
    simp only [Option.some_inj] at e1
    have := ln_nonneg e2
    omega
  by_cases hS2 : x₂ = 1000000000000000000
  · have hx1lt : x₁ < 1000000000000000000 := by omega
    rw [ln, if_neg (by omega), if_neg hS1, log2_small h1 (by omega)] at e1
    simp only [Option.map_some', Option.some_inj] at e1
    rw [ln, if_neg (by omega), if_pos hS2] at e2
    simp only [Option.some_inj] at e2
    have hz : ((0 : ℤ) * 693147180559945344).tdiv 1000000000000000000 = 0 := by decide
    omega
  · rw [ln, if_neg (by omega), if_neg hS1] at e1
    rw [ln, if_neg (by omega), if_neg hS2] at e2
    obtain ⟨w₁, hw₁, hv₁⟩ := Option.map_eq_some'.mp e1
    obtain ⟨w₂, hw₂, hv₂⟩ := Option.map_eq_some'.mp e2
    have hw := log2_mono h1 h12 hw₁ hw₂
    rw [← hv₁, ← hv₂]
    exact tdivMono (mul_nonneg (log2_nonneg hw₁) (by omega))
      (mul_le_mul_of_nonneg_right hw (by omega)) (by omega)

/-! ### getCost lemmas -/

theorem ln_two_scaled : ln (2 * 1000000000000000000) = some 693147180559945344 := by decide

theorem sumExp_ge {qYes qNo b : ℤ} (h1 : 0 ≤ qYes) (h2 : 0 ≤ qNo) (hb : 0 < b) :
    2 * 1000000000000000000 ≤
      expApprox ((qYes * 1000000000000000000).tdiv b) +
        expApprox ((qNo * 1000000000000000000).tdiv b) := by
  have a1 : 0 ≤ (qYes * 1000000000000000000).tdiv b :=
    tdivNonneg (mul_nonneg h1 (by omega)) hb.le
  have a2 : 0 ≤ (qNo * 1000000000000000000).tdiv b :=
    tdivNonneg (mul_nonneg h2 (by omega)) hb.le
  have g1 := expApprox_ge a1
  have g2 := expApprox_ge a2
  omega

theorem getCost_eq_general {qYes qNo b : ℤ} (h : ¬(qYes = 0 ∧ qNo = 0)) :
    getCost qYes qNo b =
      (ln (expApprox ((qYes * 1000000000000000000).tdiv b) +
        expApprox ((qNo * 1000000000000000000).tdiv b))).map
        (fun l => (b * l).tdiv 1000000000000000000) := by
  rw [getCost, if_neg h]

theorem getCost_zero (b : ℤ) :
    getCost 0 0 b = some ((b * 693147180559945344).tdiv 1000000000000000000) := by
  rw [getCost, if_pos ⟨rfl, rfl⟩, ln_two_scaled]
  rfl

theorem getCost_total {qYes qNo b : ℤ} (h1 : 0 ≤ qYes) (h2 : 0 ≤ qNo) (hb : 0 < b) :
    ∃ c, getCost qYes qNo b = some c := by
  by_cases hz : qYes = 0 ∧ qNo = 0
  · obtain ⟨hz1, hz2⟩ := hz
    subst hz1 hz2
    exact ⟨_, getCost_zero b⟩
  · rw [getCost_eq_general hz]
    obtain ⟨v, hv⟩ := ln_total
      (show (0:ℤ) < expApprox ((qYes * 1000000000000000000).tdiv b) +
          expApprox ((qNo * 1000000000000000000).tdiv b) by
        have := sumExp_ge h1 h2 hb
        omega)
    rw [hv]
    exact ⟨_, rfl⟩

theorem getCost_comm (a c b : ℤ) : getCost a c b = getCost c a b := by
  by_cases h : a = 0 ∧ c = 0
  · obtain ⟨h1, h2⟩ := h
    subst h1 h2
    rfl
  · have h' : ¬(c = 0 ∧ a = 0) := fun hh => h ⟨hh.2, hh.1⟩
    rw [getCost_eq_general h, getCost_eq_general h', add_comm]

theorem getCost_nonneg {qYes qNo b c : ℤ} (hb : 0 < b)
    (e : getCost qYes qNo b = some c) : 0 ≤ c := by
  by_cases hz : qYes = 0 ∧ qNo = 0
  · obtain ⟨hz1, hz2⟩ := hz
    subst hz1 hz2
    rw [getCost_zero] at e
    simp only [Option.some_inj] at e
    have : (0 : ℤ) ≤ (b * 693147180559945344).tdiv 1000000000000000000 :=
      tdivNonneg (mul_nonneg hb.le (by omega)) (by omega)
    omega
  · rw [getCost_eq_general hz] at e
    obtain ⟨w, hw, hv⟩ := Option.map_eq_some'.mp e
    rw [← hv]
    exact tdivNonneg (mul_nonneg hb.le (ln_nonneg hw)) (by omega)

/-- `getCost` is monotone in its first argument (non-negative quantities,
positive `b`). -/
theorem getCost_mono_yes {qYes qYes' qNo b c c' : ℤ} (h0 : 0 ≤ qYes) (h1 : qYes ≤ qYes')
    (h2 : 0 ≤ qNo) (hb : 0 < b) (e1 : getCost qYes qNo b = some c)
    (e2 : getCost qYes' qNo b = some c') : c ≤ c' := by
  by_cases hz : qYes = 0 ∧ qNo = 0
  · obtain ⟨hz1, hz2⟩ := hz
    subst hz1 hz2
    rw [getCost_zero] at e1
    simp only [Option.some_inj] at e1
    by_cases hz' : qYes' = 0
    · subst hz'
      rw [getCost_zero] at e2
      simp only [Option.some_inj] at e2
      omega
    · rw [getCost_eq_general (by tauto)] at e2
      obtain ⟨w, hw, hvc⟩ := Option.map_eq_some'.mp e2
      have hsum := sumExp_ge (show (0:ℤ) ≤ qYes' by omega) (le_refl 0) hb
      have hlw : (693147180559945344 : ℤ) ≤ w :=
        ln_mono (by omega) hsum ln_two_scaled hw
      have : (b * 693147180559945344).tdiv 1000000000000000000 ≤
          (b * w).tdiv 1000000000000000000 :=
        tdivMono (mul_nonneg hb.le (by omega)) (mul_le_mul_of_nonneg_left hlw hb.le) (by omega)
      omega
  · have hz' : ¬(qYes' = 0 ∧ qNo = 0) := fun hh => hz ⟨by omega, hh.2⟩
    rw [getCost_eq_general hz] at e1
    rw [getCost_eq_general hz'] at e2
    obtain ⟨w, hw, hvc⟩ := Option.map_eq_some'.mp e1
    obtain ⟨w', hw', hvc'⟩ := Option.map_eq_some'.mp e2
    have harg : (qYes * 1000000000000000000).tdiv b ≤ (qYes' * 1000000000000000000).tdiv b :=
      tdivMono (mul_nonneg h0 (by omega)) (mul_le_mul_of_nonneg_right h1 (by omega)) hb
    have hexp := expApprox_mono (tdivNonneg (mul_nonneg h0 (by omega)) hb.le) harg
    have hsumpos : 0 < expApprox ((qYes * 1000000000000000000).tdiv b) +
        expApprox ((qNo * 1000000000000000000).tdiv b) := by
      have := sumExp_ge h0 h2 hb
      omega
    have hlw : w ≤ w' := ln_mono hsumpos (by omega) hw hw'
    rw [← hvc, ← hvc']
    exact tdivMono (mul_nonneg hb.le (ln_nonneg hw))
      (mul_le_mul_of_nonneg_left hlw hb.le) (by omega)

/-- `getCost` is monotone in its second argument. -/
theorem getCost_mono_no {qYes qNo qNo' b c c' : ℤ} (h0 : 0 ≤ qNo) (h1 : qNo ≤ qNo')
    (h2 : 0 ≤ qYes) (hb : 0 < b) (e1 : getCost qYes qNo b = some c)
    (e2 : getCost qYes qNo' b = some c') : c ≤ c' := by
  rw [getCost_comm] at e1 e2
  exact getCost_mono_yes h0 h1 h2 hb e1 e2

/-! ### getPrice: the price sum is within 1 of 10^18 -/

theorem pair_tdiv_sum {eY eN : ℤ} (h1 : 0 < eY) (h2 : 0 < eN) :
    1000000000000000000 - 1 ≤
      (eY * 1000000000000000000).tdiv (eY + eN) +
        (eN * 1000000000000000000).tdiv (eY + eN) ∧
    (eY * 1000000000000000000).tdiv (eY + eN) +
        (eN * 1000000000000000000).tdiv (eY + eN) ≤ 1000000000000000000 := by
  have hT : 0 < eY + eN := by omega
  rw [Int.tdiv_eq_ediv (mul_nonneg h1.le (by omega)) hT.le,
    Int.tdiv_eq_ediv (mul_nonneg h2.le (by omega)) hT.le]
  have d1 := Int.ediv_add_emod (eY * 1000000000000000000) (eY + eN)
  have d2 := Int.ediv_add_emod (eN * 1000000000000000000) (eY + eN)
  have m1 := Int.emod_nonneg (eY * 1000000000000000000) (show eY + eN ≠ 0 by omega)
  have m2 := Int.emod_nonneg (eN * 1000000000000000000) (show eY + eN ≠ 0 by omega)
  have l1 := Int.emod_lt_of_pos (eY * 1000000000000000000) hT
  have l2 := Int.emod_lt_of_pos (eN * 1000000000000000000) hT
  set P1 := (eY * 1000000000000000000) / (eY + eN) with hP1
  set P2 := (eN * 1000000000000000000) / (eY + eN) with hP2
  set r1 := (eY * 1000000000000000000) % (eY + eN) with hr1
  set r2 := (eN * 1000000000000000000) % (eY + eN) with hr2
  have key : (eY + eN) * (P1 + P2) = (eY + eN) * 1000000000000000000 - (r1 + r2) := by
    linear_combination d1 + d2
  constructor
  · by_contra hc
    push_neg at hc
    have hle : P1 + P2 ≤ 1000000000000000000 - 2 := by omega
    have : (eY + eN) * (P1 + P2) ≤ (eY + eN) * (1000000000000000000 - 2) :=
      mul_le_mul_of_nonneg_left hle hT.le
    have expand : (eY + eN) * (1000000000000000000 - 2) =
        (eY + eN) * 1000000000000000000 - 2 * (eY + eN) := by ring
    linarith
  · have : (eY + eN) * (P1 + P2) ≤ (eY + eN) * 1000000000000000000 := by linarith
    exact le_of_mul_le_mul_left this hT

/-- In the non-degenerate branch of `getPrice`, the two truncating divisions
lose at most 1 of the 10^18 total, so the price sum lies in
[10^18 − 1, 10^18]. -/
theorem getPrice_sum_bounds {qYes qNo b : ℤ} (h1 : 0 ≤ qYes) (h2 : 0 ≤ qNo) (hb : 0 < b) :
    1000000000000000000 - 1 ≤ (getPrice qYes qNo b).1 + (getPrice qYes qNo b).2 ∧
    (getPrice qYes qNo b).1 + (getPrice qYes qNo b).2 ≤ 1000000000000000000 := by
  by_cases hz : qYes = 0 ∧ qNo = 0
  · rw [getPrice, if_pos hz]
    constructor <;> decide
  · have a1 : 0 ≤ (qYes * 1000000000000000000).tdiv b :=
      tdivNonneg (mul_nonneg h1 (by omega)) hb.le
    have a2 : 0 ≤ (qNo * 1000000000000000000).tdiv b :=
      tdivNonneg (mul_nonneg h2 (by omega)) hb.le
    have g1 := expApprox_ge a1
    have g2 := expApprox_ge a2
    rw [getPrice, if_neg hz]
    simp only []
    rw [if_neg (by omega : ¬(expApprox ((qYes * 1000000000000000000).tdiv b) +
      expApprox ((qNo * 1000000000000000000).tdiv b) = 0))]
    exact pair_tdiv_sum (by omega) (by omega)

/-! ### sqrt: the Babylonian loop computes the integer square root -/

theorem sqrtGo_char {x : ℤ} (hx : 1 ≤ x) : ∀ (f : ℕ) (z y : ℤ), y.toNat ≤ f → 1 ≤ z → 1 ≤ y →
    x < (z + 1) * (z + 1) → (y ≤ z → y * y ≤ x ∧ x < (y + 1) * (y + 1)) →
    1 ≤ sqrtGo f x z y ∧ sqrtGo f x z y * sqrtGo f x z y ≤ x ∧
      x < (sqrtGo f x z y + 1) * (sqrtGo f x z y + 1) := by
  intro f
  induction f with
  | zero => intro z y hf hz hy hB hC; omega
  | succ f ih =>
    intro z y hf hz hy hB hC
    rw [sqrtGo]
    by_cases hzy : z < y
    · rw [if_pos hzy]
      have hxz : x.tdiv z = x / z := Int.tdiv_eq_ediv (by omega) (by omega)
      rw [hxz]
      set d := x / z with hd
      have hd0 : 0 ≤ d := Int.ediv_nonneg (by omega) (by omega)
      have hdz := Int.ediv_add_emod x z
      have hm1 := Int.emod_nonneg x (show z ≠ 0 by omega)
      have hm2 := Int.emod_lt_of_pos x (show 0 < z by omega)
      have hsum2 : 2 ≤ d + z := by
        by_cases hz1 : z = 1
        · have hdx : d = x := by rw [hd, hz1, Int.ediv_one]
          omega
        · omega
      have hediv2 : (d + z).tdiv 2 = (d + z) / 2 := Int.tdiv_eq_ediv (by omega) (by omega)
      rw [hediv2]
      set nz := (d + z) / 2 with hnzdef
      have hq := Int.ediv_add_emod (d + z) 2
      have hq1 := Int.emod_nonneg (d + z) (show (2:ℤ) ≠ 0 by omega)
      have hq2 := Int.emod_lt_of_pos (d + z) (show (0:ℤ) < 2 by omega)
      have h1nz : 1 ≤ nz := by omega
      have hzd_prod : z * (d + 1) = z * d + z := by ring
      have hfx : x < z * (d + 1) := by linarith
      have hBnew : x < (nz + 1) * (nz + 1) := by
        have f1 : d + z + 1 ≤ 2 * (nz + 1) := by omega
        have f2 : (0:ℤ) ≤ d + z + 1 := by omega
        have f3 : (d + z + 1) * (d + z + 1) ≤ (2 * (nz + 1)) * (2 * (nz + 1)) :=
          mul_le_mul f1 f1 f2 (by omega)
        have f4 : 4 * (z * (d + 1)) ≤ (d + z + 1) * (d + z + 1) := by
          nlinarith [sq_nonneg (d + 1 - z)]
        nlinarith
      have hCnew : z ≤ nz → z * z ≤ x ∧ x < (z + 1) * (z + 1) := by
        intro hle
        refine ⟨?_, hB⟩
        have hzd : z ≤ d := by omega
        have : z * z ≤ z * d := mul_le_mul_of_nonneg_left hzd (by omega)
        linarith
      have hfz : z.toNat ≤ f := by omega
      exact ih nz z hfz h1nz hz hBnew hCnew
    · rw [if_neg hzy]
      obtain ⟨c1, c2⟩ := hC (by omega)
      exact ⟨hy, c1, c2⟩

theorem sqrt_char {x : ℤ} (hx : 1 ≤ x) :
    1 ≤ sqrt x ∧ sqrt x * sqrt x ≤ x ∧ x < (sqrt x + 1) * (sqrt x + 1) := by
  rw [sqrt, if_neg (by omega)]
  have hz0 : (x + 1).tdiv 2 = (x + 1) / 2 := Int.tdiv_eq_ediv (by omega) (by omega)
  rw [hz0]
  have hq := Int.ediv_add_emod (x + 1) 2
  have hq1 := Int.emod_nonneg (x + 1) (show (2:ℤ) ≠ 0 by omega)
  have hq2 := Int.emod_lt_of_pos (x + 1) (show (0:ℤ) < 2 by omega)
  set z0 := (x + 1) / 2 with hz0def
  have hB : x < (z0 + 1) * (z0 + 1) := by
    have hexp : (z0 + 1) * (z0 + 1) = z0 * z0 + 2 * z0 + 1 := by ring
    have := mul_self_nonneg z0
    linarith
  have hC : x ≤ z0 → x * x ≤ x ∧ x < (x + 1) * (x + 1) := by
    intro h
    have hx1 : x = 1 := by omega
    subst hx1
    norm_num
  exact sqrtGo_char hx x.toNat z0 x (le_refl _) (by omega) hx hB hC

theorem sqrt_nonneg' {x : ℤ} (h : 0 ≤ x) : 0 ≤ sqrt x := by
  by_cases hx0 : x = 0
  · subst hx0
    rw [sqrt, if_pos rfl]
  · have := sqrt_char (show (1:ℤ) ≤ x by omega)
    omega

theorem sqrt_mono {x y : ℤ} (hx : 0 ≤ x) (h : x ≤ y) : sqrt x ≤ sqrt y := by
  by_cases hx0 : x = 0
  · subst hx0
    rw [sqrt, if_pos rfl]
    exact sqrt_nonneg' (by omega)
  · obtain ⟨a1, a2, a3⟩ := sqrt_char (show (1:ℤ) ≤ x by omega)
    obtain ⟨b1, b2, b3⟩ := sqrt_char (show (1:ℤ) ≤ y by omega)
    by_contra hc
    push_neg at hc
    have hle : sqrt y + 1 ≤ sqrt x := by omega
    have : (sqrt y + 1) * (sqrt y + 1) ≤ sqrt x * sqrt x :=
      mul_le_mul hle hle (by omega) (by omega)
    linarith

/-! ### calculateShares: binary-search loop invariants -/

theorem getCost_mono_both {qY qY' qN qN' b c c' : ℤ} (h1 : 0 ≤ qY) (h2 : qY ≤ qY')
    (h3 : 0 ≤ qN) (h4 : qN ≤ qN') (hb : 0 < b)
    (e1 : getCost qY qN b = some c) (e2 : getCost qY' qN' b = some c') : c ≤ c' := by
  obtain ⟨m, hm⟩ := getCost_total (show (0:ℤ) ≤ qY' by omega) h3 hb
  have s1 := getCost_mono_yes h1 h2 h3 hb e1 hm
  have s2 := getCost_mono_no h3 h4 (by omega) hb hm e2
  omega

theorem sharesGo_step (isYes : Bool) (qY qN b target : ℤ) (f : ℕ) (low high : ℤ)
    (h : low < high) {c : ℤ}
    (hc : getCost (if isYes then qY + (low + high).tdiv 2 else qY)
        (if isYes then qN else qN + (low + high).tdiv 2) b = some c) :
    sharesGo isYes qY qN b target (f + 1) low high =
      if c < target then sharesGo isYes qY qN b target f ((low + high).tdiv 2 + 1) high
      else sharesGo isYes qY qN b target f low ((low + high).tdiv 2) := by
  rw [sharesGo, if_pos h]
  simp only [hc]

theorem sharesGo_total (isYes : Bool) {qY qN b target : ℤ} (hqY : 0 ≤ qY) (hqN : 0 ≤ qN)
    (hb : 0 < b) : ∀ (f : ℕ) (low high : ℤ), 0 ≤ low →
    ∃ r, sharesGo isYes qY qN b target f low high = some r := by
  intro f
  induction f with
  | zero => intro low high h; exact ⟨low, rfl⟩
  | succ f ih =>
    intro low high hlow
    by_cases hlh : low < high
    · have hmid : 0 ≤ (low + high).tdiv 2 := tdivNonneg (by omega) (by omega)
      obtain ⟨c, hc⟩ := getCost_total
        (show (0:ℤ) ≤ (if isYes then qY + (low + high).tdiv 2 else qY) by
          cases isYes <;> simp <;> omega)
        (show (0:ℤ) ≤ (if isYes then qN else qN + (low + high).tdiv 2) by
          cases isYes <;> simp <;> omega) hb
      rw [sharesGo_step isYes qY qN b target f low high hlh hc]
      by_cases hcc : c < target
      · rw [if_pos hcc]
        exact ih _ _ (by omega)
      · rw [if_neg hcc]
        exact ih _ _ hlow
    · rw [sharesGo, if_neg hlh]
      exact ⟨low, rfl⟩

/-- Invariant of the binary search: every share count strictly below the
returned `low` has cost strictly below the target, and the result stays
inside `[0, high]`. -/
theorem sharesGo_spec (isYes : Bool) {qY qN b target : ℤ} (hqY : 0 ≤ qY) (hqN : 0 ≤ qN)
    (hb : 0 < b) : ∀ (f : ℕ) (low high r : ℤ), 0 ≤ low → low ≤ high →
    (∀ s, 0 ≤ s → s < low → ∀ c,
      getCost (if isYes then qY + s else qY) (if isYes then qN else qN + s) b = some c →
      c < target) →
    sharesGo isYes qY qN b target f low high = some r →
    0 ≤ r ∧ r ≤ high ∧
      (∀ s, 0 ≤ s → s < r → ∀ c,
        getCost (if isYes then qY + s else qY) (if isYes then qN else qN + s) b = some c →
        c < target) := by
  intro f
  induction f with
  | zero =>
    intro low high r h0 hlh hinv hr
    simp only [sharesGo, Option.some_inj] at hr
    subst hr
    exact ⟨h0, hlh, hinv⟩
  | succ f ih =>
    intro low high r h0 hlh hinv hr
    by_cases hlhlt : low < high
    · have hmid0 : 0 ≤ (low + high).tdiv 2 := tdivNonneg (by omega) (by omega)
      have hmidb : low ≤ (low + high).tdiv 2 ∧ (low + high).tdiv 2 < high := by
        rw [Int.tdiv_eq_ediv (by omega) (by omega)]
        omega
      obtain ⟨c, hc⟩ := getCost_total
        (show (0:ℤ) ≤ (if isYes then qY + (low + high).tdiv 2 else qY) by
          cases isYes <;> simp <;> omega)
        (show (0:ℤ) ≤ (if isYes then qN else qN + (low + high).tdiv 2) by
          cases isYes <;> simp <;> omega) hb
      rw [sharesGo_step isYes qY qN b target f low high hlhlt hc] at hr
      by_cases hcc : c < target
      · rw [if_pos hcc] at hr
        refine ih _ _ _ (by omega) (by omega) ?_ hr
        intro s hs0 hsmid c' hc'
        have hle : c' ≤ c := by
          refine getCost_mono_both ?_ ?_ ?_ ?_ hb hc' hc
          · cases isYes <;> simp <;> omega
          · cases isYes <;> simp <;> omega
          · cases isYes <;> simp <;> omega
          · cases isYes <;> simp <;> omega
        omega
      · rw [if_neg hcc] at hr
        have hres := ih _ _ _ h0 (by omega) hinv hr
        exact ⟨hres.1, by omega, hres.2.2⟩
    · rw [sharesGo, if_neg hlhlt] at hr
      simp only [Option.some_inj] at hr
      subst hr
      exact ⟨h0, hlh, hinv⟩

theorem calculateShares_total (payAmount : ℤ) (isYes : Bool) {qY qN b : ℤ}
    (h1 : 0 ≤ qY) (h2 : 0 ≤ qN) (hb : 0 < b) :
    ∃ r, calculateShares payAmount isYes qY qN b = some r := by
  obtain ⟨c, hc⟩ := getCost_total h1 h2 hb
  rw [calculateShares, hc]
  exact sharesGo_total isYes h1 h2 hb 50 0 (payAmount * 10) (le_refl 0)

theorem calculateShares_eq {payAmount : ℤ} {isYes : Bool} {qY qN b c0 : ℤ}
    (hc : getCost qY qN b = some c0) :
    calculateShares payAmount isYes qY qN b =
      sharesGo isYes qY qN b (c0 + payAmount) 50 0 (payAmount * 10) := by
  rw [calculateShares, hc]
  rfl

/-- One-step unfolding of the binary search keyed on a literal fuel value,
for the step-by-step evaluation of the spec's preview scenario. -/
theorem sharesGo_succ (isYes : Bool) (qY qN b target : ℤ) (f : ℕ) (hf : f ≠ 0)
    (low high : ℤ) (h : low < high) {c : ℤ}
    (hc : getCost (if isYes then qY + (low + high).tdiv 2 else qY)
        (if isYes then qN else qN + (low + high).tdiv 2) b = some c) :
    sharesGo isYes qY qN b target f low high =
      if c < target then sharesGo isYes qY qN b target (f - 1) ((low + high).tdiv 2 + 1) high
      else sharesGo isYes qY qN b target (f - 1) low ((low + high).tdiv 2) := by
  obtain ⟨g, rfl⟩ : ∃ g, f = g + 1 := ⟨f - 1, by omega⟩
  simp only [Nat.add_sub_cancel]
  exact sharesGo_step isYes qY qN b target g low high h hc

/-! ### calculateB lemmas -/

theorem calculateB_eq_general {p : LMSRParams} {tv tc : ℤ} (h : ¬(tv = 0 ∧ tc = 0)) :
    calculateB p tv tc =
      (ln (1000000000000000000 + tc * 1000000000000000000)).map (fun lnTxCount =>
        (p.b0 * (1000000000000000000 +
          (p.alpha * sqrt ((tv * 1000000000000000000).tdiv p.V0)).tdiv 1000000000000000000 +
          (p.beta * lnTxCount).tdiv 1000000000000000000)).tdiv 1000000000000000000) := by
  rw [calculateB, if_neg h]

theorem calculateB_zero (p : LMSRParams) : calculateB p 0 0 = some p.b0 := by
  rw [calculateB, if_pos ⟨rfl, rfl⟩]

theorem calculateB_total (p : LMSRParams) {tv tc : ℤ} (htc : 0 ≤ tc) :
    ∃ v, calculateB p tv tc = some v := by
  by_cases hz : tv = 0 ∧ tc = 0
  · obtain ⟨z1, z2⟩ := hz
    subst z1 z2
    exact ⟨p.b0, calculateB_zero p⟩
  · rw [calculateB_eq_general hz]
    obtain ⟨w, hw⟩ := ln_total
      (show (0:ℤ) < 1000000000000000000 + tc * 1000000000000000000 by
        have : 0 ≤ tc * 1000000000000000000 := mul_nonneg htc (by omega)
        omega)
    rw [hw]
    exact ⟨_, rfl⟩

/-- If both quantities are present (not the zero special case), the result
dominates `b0`. -/
theorem calculateB_ge_b0 {p : LMSRParams} (hb0 : 0 < p.b0) (ha : 0 ≤ p.alpha)
    (hbeta : 0 ≤ p.beta) (hV : 0 < p.V0) {tv tc v : ℤ} (h0 : 0 ≤ tv) (h2 : 0 ≤ tc)
    (hg : ¬(tv = 0 ∧ tc = 0)) (e : calculateB p tv tc = some v) : p.b0 ≤ v := by
  rw [calculateB_eq_general hg] at e
  obtain ⟨w, hw, hv⟩ := Option.map_eq_some'.mp e
  have hw0 := ln_nonneg hw
  have hrn : 0 ≤ (tv * 1000000000000000000).tdiv p.V0 :=
    tdivNonneg (mul_nonneg h0 (by omega)) hV.le
  have hsq : 0 ≤ sqrt ((tv * 1000000000000000000).tdiv p.V0) := sqrt_nonneg' hrn
  have t1 : 0 ≤ (p.alpha * sqrt ((tv * 1000000000000000000).tdiv p.V0)).tdiv
      1000000000000000000 := stepNonneg ha hsq (by omega)
  have t2 : 0 ≤ (p.beta * w).tdiv 1000000000000000000 := stepNonneg hbeta hw0 (by omega)
  have hmult : 1000000000000000000 ≤ 1000000000000000000 +
      (p.alpha * sqrt ((tv * 1000000000000000000).tdiv p.V0)).tdiv 1000000000000000000 +
      (p.beta * w).tdiv 1000000000000000000 := by omega
  have hge : (p.b0 * 1000000000000000000).tdiv 1000000000000000000 ≤
      (p.b0 * (1000000000000000000 +
        (p.alpha * sqrt ((tv * 1000000000000000000).tdiv p.V0)).tdiv 1000000000000000000 +
        (p.beta * w).tdiv 1000000000000000000)).tdiv 1000000000000000000 :=
    tdivMono (mul_nonneg hb0.le (by omega)) (mul_le_mul_of_nonneg_left hmult hb0.le) (by omega)
  have hcancel : (p.b0 * 1000000000000000000).tdiv 1000000000000000000 = p.b0 := by
    rw [Int.tdiv_eq_ediv (mul_nonneg hb0.le (by omega)) (by omega)]
    exact Int.mul_ediv_cancel _ (by omega)
  omega

theorem calculateB_mono_vol {p : LMSRParams} (hb0 : 0 < p.b0) (ha : 0 ≤ p.alpha)
    (hbeta : 0 ≤ p.beta) (hV : 0 < p.V0) {tv tv' tc v v' : ℤ} (h0 : 0 ≤ tv) (h1 : tv ≤ tv')
    (h2 : 0 ≤ tc) (e1 : calculateB p tv tc = some v) (e2 : calculateB p tv' tc = some v') :
    v ≤ v' := by
  by_cases hz : tv = 0 ∧ tc = 0
  · obtain ⟨z1, z2⟩ := hz
    subst z1 z2
    rw [calculateB_zero] at e1
    simp only [Option.some_inj] at e1
    by_cases hz' : tv' = 0
    · subst hz'
      rw [calculateB_zero] at e2
      simp only [Option.some_inj] at e2
      omega
    · have := calculateB_ge_b0 hb0 ha hbeta hV (by omega) (le_refl 0) (by tauto) e2
      omega
  · have hz' : ¬(tv' = 0 ∧ tc = 0) := fun hh => hz ⟨by omega, hh.2⟩
    rw [calculateB_eq_general hz] at e1
    rw [calculateB_eq_general hz'] at e2
    obtain ⟨w, hw, hv⟩ := Option.map_eq_some'.mp e1
    obtain ⟨w', hw', hv'⟩ := Option.map_eq_some'.mp e2
    have hww : w = w' := by
      rw [hw] at hw'
      exact Option.some_inj.mp hw'
    subst hww
    have hw0 := ln_nonneg hw
    have hr : (tv * 1000000000000000000).tdiv p.V0 ≤ (tv' * 1000000000000000000).tdiv p.V0 :=
      tdivMono (mul_nonneg h0 (by omega)) (mul_le_mul_of_nonneg_right h1 (by omega)) hV
    have hrn : 0 ≤ (tv * 1000000000000000000).tdiv p.V0 :=
      tdivNonneg (mul_nonneg h0 (by omega)) hV.le
    have hs := sqrt_mono hrn hr
    have hsn := sqrt_nonneg' hrn
    have h5 : (p.alpha * sqrt ((tv * 1000000000000000000).tdiv p.V0)).tdiv 1000000000000000000 ≤
        (p.alpha * sqrt ((tv' * 1000000000000000000).tdiv p.V0)).tdiv 1000000000000000000 :=
      tdivMono (mul_nonneg ha hsn) (mul_le_mul_of_nonneg_left hs ha) (by omega)
    have t1 : 0 ≤ (p.alpha * sqrt ((tv * 1000000000000000000).tdiv p.V0)).tdiv
        1000000000000000000 := stepNonneg ha hsn (by omega)
    have t2 : 0 ≤ (p.beta * w).tdiv 1000000000000000000 := stepNonneg hbeta hw0 (by omega)
    rw [← hv, ← hv']
    exact tdivMono (mul_nonneg hb0.le (by omega))
      (mul_le_mul_of_nonneg_left (by omega) hb0.le) (by omega)

theorem calculateB_mono_tx {p : LMSRParams} (hb0 : 0 < p.b0) (ha : 0 ≤ p.alpha)
    (hbeta : 0 ≤ p.beta) (hV : 0 < p.V0) {tv tc tc' v v' : ℤ} (h0 : 0 ≤ tv) (h1 : 0 ≤ tc)
    (h2 : tc ≤ tc') (e1 : calculateB p tv tc = some v) (e2 : calculateB p tv tc' = some v') :
    v ≤ v' := by
  by_cases hz : tv = 0 ∧ tc = 0
  · obtain ⟨z1, z2⟩ := hz
    subst z1 z2
    rw [calculateB_zero] at e1
    simp only [Option.some_inj] at e1
    by_cases hz' : tc' = 0
    · subst hz'
      rw [calculateB_zero] at e2
      simp only [Option.some_inj] at e2
      omega
    · have := calculateB_ge_b0 hb0 ha hbeta hV (le_refl 0) (by omega) (by tauto) e2
      omega
  · have hz' : ¬(tv = 0 ∧ tc' = 0) := fun hh => hz ⟨hh.1, by omega⟩
    rw [calculateB_eq_general hz] at e1
    rw [calculateB_eq_general hz'] at e2
    obtain ⟨w, hw, hv⟩ := Option.map_eq_some'.mp e1
    obtain ⟨w', hw', hv'⟩ := Option.map_eq_some'.mp e2
    have hw0 := ln_nonneg hw
    have hln : w ≤ w' := by
      refine ln_mono ?_ ?_ hw hw'
      · have : 0 ≤ tc * 1000000000000000000 := mul_nonneg h1 (by omega)
        omega
      · have : tc * 1000000000000000000 ≤ tc' * 1000000000000000000 :=
          mul_le_mul_of_nonneg_right h2 (by omega)
        omega
    have hrn : 0 ≤ (tv * 1000000000000000000).tdiv p.V0 :=
      tdivNonneg (mul_nonneg h0 (by omega)) hV.le
    have hsn := sqrt_nonneg' hrn
    have t1 : 0 ≤ (p.alpha * sqrt ((tv * 1000000000000000000).tdiv p.V0)).tdiv
        1000000000000000000 := stepNonneg ha hsn (by omega)
    have t2 : 0 ≤ (p.beta * w).tdiv 1000000000000000000 := stepNonneg hbeta hw0 (by omega)
    have h6 : (p.beta * w).tdiv 1000000000000000000 ≤
        (p.beta * w').tdiv 1000000000000000000 :=
      tdivMono (mul_nonneg hbeta hw0) (mul_le_mul_of_nonneg_left hln hbeta) (by omega)
    rw [← hv, ← hv']
    exact tdivMono (mul_nonneg hb0.le (by omega))
      (mul_le_mul_of_nonneg_left (by omega) hb0.le) (by omega)

/-! ### The claims -/

/-- C1: for every qYes ≥ 0, qNo ≥ 0 and b > 0, the pair (priceYes, priceNo)
returned by getPrice satisfies |priceYes + priceNo − 10^18| < 10^15. -/
theorem claim_C1_price_sum_within_tolerance (qYes qNo b : ℤ)
    (h1 : 0 ≤ qYes) (h2 : 0 ≤ qNo) (hb : 0 < b) :
    |(getPrice qYes qNo b).1 + (getPrice qYes qNo b).2 - 1000000000000000000| <
      1000000000000000 := by
  have := getPrice_sum_bounds h1 h2 hb
  rw [abs_lt]
  omega

/-- Witness for C1 at qYes = 1, qNo = 2, b = 3. -/
theorem claim_C1_witness :
    (0:ℤ) ≤ 1 ∧ (0:ℤ) ≤ 2 ∧ (0:ℤ) < 3 ∧
    |(getPrice 1 2 3).1 + (getPrice 1 2 3).2 - 1000000000000000000| < 1000000000000000 :=
  ⟨by decide, by decide, by decide,
    claim_C1_price_sum_within_tolerance 1 2 3 (by decide) (by decide) (by decide)⟩

/-- C2 counterexample: at payAmount = 7, qYes = qNo = 10, b = 1 the solver
returns 32 shares, but 32 shares cost 135 − 7 = 128 > 7, so the result is
more than the target cost justifies and is not the largest s with
getCost(q + s·e) − getCost(q) ≤ payAmount. -/
theorem claim_C2_counterexample :
    calculateShares 7 true 10 10 1 = some 32 ∧
    getCost 10 10 1 = some 7 ∧
    getCost (10 + 32) 10 1 = some 135 ∧
    ¬((135 : ℤ) - 7 ≤ 7) :=
  ⟨by decide, by decide, by decide, by decide⟩

/-- C2 (amended): the result r of calculateShares lies in [0, 10·payAmount],
and every share count strictly below r costs strictly less than
getCost(q) + payAmount; r itself may cost more than payAmount (the cost
function can jump past the target), and with the 50-iteration cap r may
also fall short of the largest affordable count. -/
theorem claim_C2_amended (payAmount : ℤ) (isYes : Bool) (qYes qNo b : ℤ)
    (hp : 0 < payAmount) (h1 : 0 ≤ qYes) (h2 : 0 ≤ qNo) (hb : 0 < b) :
    (∃ r, calculateShares payAmount isYes qYes qNo b = some r) ∧
    ∀ r, calculateShares payAmount isYes qYes qNo b = some r →
      0 ≤ r ∧ r ≤ payAmount * 10 ∧
      ∀ s, 0 ≤ s → s < r → ∀ c c', getCost qYes qNo b = some c →
        getCost (if isYes then qYes + s else qYes) (if isYes then qNo else qNo + s) b =
          some c' →
        c' - c < payAmount := by
  refine ⟨calculateShares_total payAmount isYes h1 h2 hb, ?_⟩
  intro r hr
  obtain ⟨c0, hc0⟩ := getCost_total h1 h2 hb
  rw [calculateShares, hc0] at hr
  have hspec := sharesGo_spec isYes h1 h2 hb 50 0 (payAmount * 10) r (le_refl 0)
    (by have : 0 ≤ payAmount * 10 := by omega
        omega)
    (by intro s hs0 hs1 c hc; omega) hr
  refine ⟨hspec.1, hspec.2.1, ?_⟩
  intro s hs0 hsr c c' hc hc'
  have hcc0 : c = c0 := by
    rw [hc] at hc0
    exact Option.some_inj.mp hc0
  have := hspec.2.2 s hs0 hsr c' hc'
  omega

/-- Witness for the amended C2 at payAmount = 1, qYes = qNo = 0, b = 1. -/
theorem claim_C2_amended_witness :
    (∃ r, calculateShares 1 true 0 0 1 = some r) ∧
    ∀ r, calculateShares 1 true 0 0 1 = some r →
      0 ≤ r ∧ r ≤ 1 * 10 ∧
      ∀ s, 0 ≤ s → s < r → ∀ c c', getCost 0 0 1 = some c →
        getCost (if true then 0 + s else 0) (if true then 0 else 0 + s) 1 = some c' →
        c' - c < 1 :=
  claim_C2_amended 1 true 0 0 1 (by decide) (by decide) (by decide) (by decide)

/-- The share count of the spec's preview scenario (payAmount net of fee =
99.5·10^18, qYes = qNo = b = 100·10^18), evaluated by unfolding the
50-iteration binary search one literal step at a time. -/
theorem scenario_shares :
    calculateShares 99500000000000000000 true 100000000000000000000 100000000000000000000
      100000000000000000000 = some 163994108616025791041 := by
  rw [calculateShares_eq (show getCost (100000000000000000000:ℤ) 100000000000000000000 100000000000000000000 = some 160810145889907319800 from by decide)]
  rw [show (160810145889907319800:ℤ) + 99500000000000000000 = 260310145889907319800 from by decide]
  rw [show (99500000000000000000:ℤ) * 10 = 995000000000000000000 from by decide]
  rw [sharesGo_succ true 100000000000000000000 100000000000000000000 100000000000000000000 260310145889907319800 50 (by decide) 0 995000000000000000000 (by decide) (show getCost (100000000000000000000 + ((0:ℤ) + 995000000000000000000).tdiv 2) 100000000000000000000 100000000000000000000 = some 507383736169879991800 from by decide)]
  rw [if_neg (by decide : ¬((507383736169879991800:ℤ) < 260310145889907319800))]
  rw [show ((0:ℤ) + 995000000000000000000).tdiv 2 = 497500000000000000000 from by decide]
  rw [show (50:ℕ) - 1 = 49 from rfl]
  rw [sharesGo_succ true 100000000000000000000 100000000000000000000 100000000000000000000 260310145889907319800 49 (by decide) 0 497500000000000000000 (by decide) (show getCost (100000000000000000000 + ((0:ℤ) + 497500000000000000000).tdiv 2) 100000000000000000000 100000000000000000000 = some 311916231251975404800 from by decide)]
  rw [if_neg (by decide : ¬((311916231251975404800:ℤ) < 260310145889907319800))]
  rw [show ((0:ℤ) + 497500000000000000000).tdiv 2 = 248750000000000000000 from by decide]
  rw [show (49:ℕ) - 1 = 48 from rfl]
  rw [sharesGo_succ true 100000000000000000000 100000000000000000000 100000000000000000000 260310145889907319800 48 (by decide) 0 248750000000000000000 (by decide) (show getCost (100000000000000000000 + ((0:ℤ) + 248750000000000000000).tdiv 2) 100000000000000000000 100000000000000000000 = some 230124863945901854200 from by decide)]
  rw [if_pos (by decide : (230124863945901854200:ℤ) < 260310145889907319800)]
  rw [show ((0:ℤ) + 248750000000000000000).tdiv 2 = 124375000000000000000 from by decide]
  rw [show (124375000000000000000:ℤ) + 1 = 124375000000000000001 from by decide]
  rw [show (48:ℕ) - 1 = 47 from rfl]
  rw [sharesGo_succ true 100000000000000000000 100000000000000000000 100000000000000000000 260310145889907319800 47 (by decide) 124375000000000000001 248750000000000000000 (by decide) (show getCost (100000000000000000000 + ((124375000000000000001:ℤ) + 248750000000000000000).tdiv 2) 100000000000000000000 100000000000000000000 = some 277258872223978137600 from by decide)]
  rw [if_neg (by decide : ¬((277258872223978137600:ℤ) < 260310145889907319800))]
  rw [show ((124375000000000000001:ℤ) + 248750000000000000000).tdiv 2 = 186562500000000000000 from by decide]
  rw [show (47:ℕ) - 1 = 46 from rfl]
  rw [sharesGo_succ true 100000000000000000000 100000000000000000000 100000000000000000000 260310145889907319800 46 (by decide) 124375000000000000001 186562500000000000000 (by decide) (show getCost (100000000000000000000 + ((124375000000000000001:ℤ) + 186562500000000000000).tdiv 2) 100000000000000000000 100000000000000000000 = some 242601513195980870400 from by decide)]
  rw [if_pos (by decide : (242601513195980870400:ℤ) < 260310145889907319800)]
  rw [show ((124375000000000000001:ℤ) + 186562500000000000000).tdiv 2 = 155468750000000000000 from by decide]
  rw [show (155468750000000000000:ℤ) + 1 = 155468750000000000001 from by decide]
  rw [show (46:ℕ) - 1 = 45 from rfl]
  rw [sharesGo_succ true 100000000000000000000 100000000000000000000 100000000000000000000 260310145889907319800 45 (by decide) 155468750000000000001 186562500000000000000 (by decide) (show getCost (100000000000000000000 + ((155468750000000000001:ℤ) + 186562500000000000000).tdiv 2) 100000000000000000000 100000000000000000000 = some 277258872223978137600 from by decide)]
  rw [if_neg (by decide : ¬((277258872223978137600:ℤ) < 260310145889907319800))]
  rw [show ((155468750000000000001:ℤ) + 186562500000000000000).tdiv 2 = 171015625000000000000 from by decide]
  rw [show (45:ℕ) - 1 = 44 from rfl]
  rw [sharesGo_succ true 100000000000000000000 100000000000000000000 100000000000000000000 260310145889907319800 44 (by decide) 155468750000000000001 171015625000000000000 (by decide) (show getCost (100000000000000000000 + ((155468750000000000001:ℤ) + 171015625000000000000).tdiv 2) 100000000000000000000 100000000000000000000 = some 242601513195980870400 from by decide)]
  rw [if_pos (by decide : (242601513195980870400:ℤ) < 260310145889907319800)]
  rw [show ((155468750000000000001:ℤ) + 171015625000000000000).tdiv 2 = 163242187500000000000 from by decide]
  rw [show (163242187500000000000:ℤ) + 1 = 163242187500000000001 from by decide]
  rw [show (44:ℕ) - 1 = 43 from rfl]
  rw [sharesGo_succ true 100000000000000000000 100000000000000000000 100000000000000000000 260310145889907319800 43 (by decide) 163242187500000000001 171015625000000000000 (by decide) (show getCost (100000000000000000000 + ((163242187500000000001:ℤ) + 171015625000000000000).tdiv 2) 100000000000000000000 100000000000000000000 = some 277258872223978137600 from by decide)]
  rw [if_neg (by decide : ¬((277258872223978137600:ℤ) < 260310145889907319800))]
  rw [show ((163242187500000000001:ℤ) + 171015625000000000000).tdiv 2 = 167128906250000000000 from by decide]
  rw [show (43:ℕ) - 1 = 42 from rfl]
  rw [sharesGo_succ true 100000000000000000000 100000000000000000000 100000000000000000000 260310145889907319800 42 (by decide) 163242187500000000001 167128906250000000000 (by decide) (show getCost (100000000000000000000 + ((163242187500000000001:ℤ) + 167128906250000000000).tdiv 2) 100000000000000000000 100000000000000000000 = some 277258872223978137600 from by decide)]
  rw [if_neg (by decide : ¬((277258872223978137600:ℤ) < 260310145889907319800))]
  rw [show ((163242187500000000001:ℤ) + 167128906250000000000).tdiv 2 = 165185546875000000000 from by decide]
  rw [show (42:ℕ) - 1 = 41 from rfl]
  rw [sharesGo_succ true 100000000000000000000 100000000000000000000 100000000000000000000 260310145889907319800 41 (by decide) 163242187500000000001 165185546875000000000 (by decide) (show getCost (100000000000000000000 + ((163242187500000000001:ℤ) + 165185546875000000000).tdiv 2) 100000000000000000000 100000000000000000000 = some 277258872223978137600 from by decide)]
  rw [if_neg (by decide : ¬((277258872223978137600:ℤ) < 260310145889907319800))]
  rw [show ((163242187500000000001:ℤ) + 165185546875000000000).tdiv 2 = 164213867187500000000 from by decide]
  rw [show (41:ℕ) - 1 = 40 from rfl]
  rw [sharesGo_succ true 100000000000000000000 100000000000000000000 100000000000000000000 260310145889907319800 40 (by decide) 163242187500000000001 164213867187500000000 (by decide) (show getCost (100000000000000000000 + ((163242187500000000001:ℤ) + 164213867187500000000).tdiv 2) 100000000000000000000 100000000000000000000 = some 242601513195980870400 from by decide)]
  rw [if_pos (by decide : (242601513195980870400:ℤ) < 260310145889907319800)]
  rw [show ((163242187500000000001:ℤ) + 164213867187500000000).tdiv 2 = 163728027343750000000 from by decide]
  rw [show (163728027343750000000:ℤ) + 1 = 163728027343750000001 from by decide]
  rw [show (40:ℕ) - 1 = 39 from rfl]
  rw [sharesGo_succ true 100000000000000000000 100000000000000000000 100000000000000000000 260310145889907319800 39 (by decide) 163728027343750000001 164213867187500000000 (by decide) (show getCost (100000000000000000000 + ((163728027343750000001:ℤ) + 164213867187500000000).tdiv 2) 100000000000000000000 100000000000000000000 = some 242601513195980870400 from by decide)]
  rw [if_pos (by decide : (242601513195980870400:ℤ) < 260310145889907319800)]
  rw [show ((163728027343750000001:ℤ) + 164213867187500000000).tdiv 2 = 163970947265625000000 from by decide]
  rw [show (163970947265625000000:ℤ) + 1 = 163970947265625000001 from by decide]
  rw [show (39:ℕ) - 1 = 38 from rfl]
  rw [sharesGo_succ true 100000000000000000000 100000000000000000000 100000000000000000000 260310145889907319800 38 (by decide) 163970947265625000001 164213867187500000000 (by decide) (show getCost (100000000000000000000 + ((163970947265625000001:ℤ) + 164213867187500000000).tdiv 2) 100000000000000000000 100000000000000000000 = some 277258872223978137600 from by decide)]
  rw [if_neg (by decide : ¬((277258872223978137600:ℤ) < 260310145889907319800))]
  rw [show ((163970947265625000001:ℤ) + 164213867187500000000).tdiv 2 = 164092407226562500000 from by decide]
  rw [show (38:ℕ) - 1 = 37 from rfl]
  rw [sharesGo_succ true 100000000000000000000 100000000000000000000 100000000000000000000 260310145889907319800 37 (by decide) 163970947265625000001 164092407226562500000 (by decide) (show getCost (100000000000000000000 + ((163970947265625000001:ℤ) + 164092407226562500000).tdiv 2) 100000000000000000000 100000000000000000000 = some 277258872223978137600 from by decide)]
  rw [if_neg (by decide : ¬((277258872223978137600:ℤ) < 260310145889907319800))]
  rw [show ((163970947265625000001:ℤ) + 164092407226562500000).tdiv 2 = 164031677246093750000 from by decide]
  rw [show (37:ℕ) - 1 = 36 from rfl]
  rw [sharesGo_succ true 100000000000000000000 100000000000000000000 100000000000000000000 260310145889907319800 36 (by decide) 163970947265625000001 164031677246093750000 (by decide) (show getCost (100000000000000000000 + ((163970947265625000001:ℤ) + 164031677246093750000).tdiv 2) 100000000000000000000 100000000000000000000 = some 277258872223978137600 from by decide)]
  rw [if_neg (by decide : ¬((277258872223978137600:ℤ) < 260310145889907319800))]
  rw [show ((163970947265625000001:ℤ) + 164031677246093750000).tdiv 2 = 164001312255859375000 from by decide]
  rw [show (36:ℕ) - 1 = 35 from rfl]
  rw [sharesGo_succ true 100000000000000000000 100000000000000000000 100000000000000000000 260310145889907319800 35 (by decide) 163970947265625000001 164001312255859375000 (by decide) (show getCost (100000000000000000000 + ((163970947265625000001:ℤ) + 164001312255859375000).tdiv 2) 100000000000000000000 100000000000000000000 = some 242601513195980870400 from by decide)]
  rw [if_pos (by decide : (242601513195980870400:ℤ) < 260310145889907319800)]
  rw [show ((163970947265625000001:ℤ) + 164001312255859375000).tdiv 2 = 163986129760742187500 from by decide]
  rw [show (163986129760742187500:ℤ) + 1 = 163986129760742187501 from by decide]
  rw [show (35:ℕ) - 1 = 34 from rfl]
  rw [sharesGo_succ true 100000000000000000000 100000000000000000000 100000000000000000000 260310145889907319800 34 (by decide) 163986129760742187501 164001312255859375000 (by decide) (show getCost (100000000000000000000 + ((163986129760742187501:ℤ) + 164001312255859375000).tdiv 2) 100000000000000000000 100000000000000000000 = some 242601513195980870400 from by decide)]
  rw [if_pos (by decide : (242601513195980870400:ℤ) < 260310145889907319800)]
  rw [show ((163986129760742187501:ℤ) + 164001312255859375000).tdiv 2 = 163993721008300781250 from by decide]
  rw [show (163993721008300781250:ℤ) + 1 = 163993721008300781251 from by decide]
  rw [show (34:ℕ) - 1 = 33 from rfl]
  rw [sharesGo_succ true 100000000000000000000 100000000000000000000 100000000000000000000 260310145889907319800 33 (by decide) 163993721008300781251 164001312255859375000 (by decide) (show getCost (100000000000000000000 + ((163993721008300781251:ℤ) + 164001312255859375000).tdiv 2) 100000000000000000000 100000000000000000000 = some 277258872223978137600 from by decide)]
  rw [if_neg (by decide : ¬((277258872223978137600:ℤ) < 260310145889907319800))]
  rw [show ((163993721008300781251:ℤ) + 164001312255859375000).tdiv 2 = 163997516632080078125 from by decide]
  rw [show (33:ℕ) - 1 = 32 from rfl]
  rw [sharesGo_succ true 100000000000000000000 100000000000000000000 100000000000000000000 260310145889907319800 32 (by decide) 163993721008300781251 163997516632080078125 (by decide) (show getCost (100000000000000000000 + ((163993721008300781251:ℤ) + 163997516632080078125).tdiv 2) 100000000000000000000 100000000000000000000 = some 277258872223978137600 from by decide)]
  rw [if_neg (by decide : ¬((277258872223978137600:ℤ) < 260310145889907319800))]
  rw [show ((163993721008300781251:ℤ) + 163997516632080078125).tdiv 2 = 163995618820190429688 from by decide]
  rw [show (32:ℕ) - 1 = 31 from rfl]
  rw [sharesGo_succ true 100000000000000000000 100000000000000000000 100000000000000000000 260310145889907319800 31 (by decide) 163993721008300781251 163995618820190429688 (by decide) (show getCost (100000000000000000000 + ((163993721008300781251:ℤ) + 163995618820190429688).tdiv 2) 100000000000000000000 100000000000000000000 = some 277258872223978137600 from by decide)]
  rw [if_neg (by decide : ¬((277258872223978137600:ℤ) < 260310145889907319800))]
  rw [show ((163993721008300781251:ℤ) + 163995618820190429688).tdiv 2 = 163994669914245605469 from by decide]
  rw [show (31:ℕ) - 1 = 30 from rfl]
  rw [sharesGo_succ true 100000000000000000000 100000000000000000000 100000000000000000000 260310145889907319800 30 (by decide) 163993721008300781251 163994669914245605469 (by decide) (show getCost (100000000000000000000 + ((163993721008300781251:ℤ) + 163994669914245605469).tdiv 2) 100000000000000000000 100000000000000000000 = some 277258872223978137600 from by decide)]
  rw [if_neg (by decide : ¬((277258872223978137600:ℤ) < 260310145889907319800))]
  rw [show ((163993721008300781251:ℤ) + 163994669914245605469).tdiv 2 = 163994195461273193360 from by decide]
  rw [show (30:ℕ) - 1 = 29 from rfl]
  rw [sharesGo_succ true 100000000000000000000 100000000000000000000 100000000000000000000 260310145889907319800 29 (by decide) 163993721008300781251 163994195461273193360 (by decide) (show getCost (100000000000000000000 + ((163993721008300781251:ℤ) + 163994195461273193360).tdiv 2) 100000000000000000000 100000000000000000000 = some 242601513195980870400 from by decide)]
  rw [if_pos (by decide : (242601513195980870400:ℤ) < 260310145889907319800)]
  rw [show ((163993721008300781251:ℤ) + 163994195461273193360).tdiv 2 = 163993958234786987305 from by decide]
  rw [show (163993958234786987305:ℤ) + 1 = 163993958234786987306 from by decide]
  rw [show (29:ℕ) - 1 = 28 from rfl]
  rw [sharesGo_succ true 100000000000000000000 100000000000000000000 100000000000000000000 260310145889907319800 28 (by decide) 163993958234786987306 163994195461273193360 (by decide) (show getCost (100000000000000000000 + ((163993958234786987306:ℤ) + 163994195461273193360).tdiv 2) 100000000000000000000 100000000000000000000 = some 242601513195980870400 from by decide)]
  rw [if_pos (by decide : (242601513195980870400:ℤ) < 260310145889907319800)]
  rw [show ((163993958234786987306:ℤ) + 163994195461273193360).tdiv 2 = 163994076848030090333 from by decide]
  rw [show (163994076848030090333:ℤ) + 1 = 163994076848030090334 from by decide]
  rw [show (28:ℕ) - 1 = 27 from rfl]
  rw [sharesGo_succ true 100000000000000000000 100000000000000000000 100000000000000000000 260310145889907319800 27 (by decide) 163994076848030090334 163994195461273193360 (by decide) (show getCost (100000000000000000000 + ((163994076848030090334:ℤ) + 163994195461273193360).tdiv 2) 100000000000000000000 100000000000000000000 = some 277258872223978137600 from by decide)]
  rw [if_neg (by decide : ¬((277258872223978137600:ℤ) < 260310145889907319800))]
  rw [show ((163994076848030090334:ℤ) + 163994195461273193360).tdiv 2 = 163994136154651641847 from by decide]
  rw [show (27:ℕ) - 1 = 26 from rfl]
  rw [sharesGo_succ true 100000000000000000000 100000000000000000000 100000000000000000000 260310145889907319800 26 (by decide) 163994076848030090334 163994136154651641847 (by decide) (show getCost (100000000000000000000 + ((163994076848030090334:ℤ) + 163994136154651641847).tdiv 2) 100000000000000000000 100000000000000000000 = some 242601513195980870400 from by decide)]
  rw [if_pos (by decide : (242601513195980870400:ℤ) < 260310145889907319800)]
  rw [show ((163994076848030090334:ℤ) + 163994136154651641847).tdiv 2 = 163994106501340866090 from by decide]
  rw [show (163994106501340866090:ℤ) + 1 = 163994106501340866091 from by decide]
  rw [show (26:ℕ) - 1 = 25 from rfl]
  rw [sharesGo_succ true 100000000000000000000 100000000000000000000 100000000000000000000 260310145889907319800 25 (by decide) 163994106501340866091 163994136154651641847 (by decide) (show getCost (100000000000000000000 + ((163994106501340866091:ℤ) + 163994136154651641847).tdiv 2) 100000000000000000000 100000000000000000000 = some 277258872223978137600 from by decide)]
  rw [if_neg (by decide : ¬((277258872223978137600:ℤ) < 260310145889907319800))]
  rw [show ((163994106501340866091:ℤ) + 163994136154651641847).tdiv 2 = 163994121327996253969 from by decide]
  rw [show (25:ℕ) - 1 = 24 from rfl]
  rw [sharesGo_succ true 100000000000000000000 100000000000000000000 100000000000000000000 260310145889907319800 24 (by decide) 163994106501340866091 163994121327996253969 (by decide) (show getCost (100000000000000000000 + ((163994106501340866091:ℤ) + 163994121327996253969).tdiv 2) 100000000000000000000 100000000000000000000 = some 277258872223978137600 from by decide)]
  rw [if_neg (by decide : ¬((277258872223978137600:ℤ) < 260310145889907319800))]
  rw [show ((163994106501340866091:ℤ) + 163994121327996253969).tdiv 2 = 163994113914668560030 from by decide]
  rw [show (24:ℕ) - 1 = 23 from rfl]
  rw [sharesGo_succ true 100000000000000000000 100000000000000000000 100000000000000000000 260310145889907319800 23 (by decide) 163994106501340866091 163994113914668560030 (by decide) (show getCost (100000000000000000000 + ((163994106501340866091:ℤ) + 163994113914668560030).tdiv 2) 100000000000000000000 100000000000000000000 = some 277258872223978137600 from by decide)]
  rw [if_neg (by decide : ¬((277258872223978137600:ℤ) < 260310145889907319800))]
  rw [show ((163994106501340866091:ℤ) + 163994113914668560030).tdiv 2 = 163994110208004713060 from by decide]
  rw [show (23:ℕ) - 1 = 22 from rfl]
  rw [sharesGo_succ true 100000000000000000000 100000000000000000000 100000000000000000000 260310145889907319800 22 (by decide) 163994106501340866091 163994110208004713060 (by decide) (show getCost (100000000000000000000 + ((163994106501340866091:ℤ) + 163994110208004713060).tdiv 2) 100000000000000000000 100000000000000000000 = some 242601513195980870400 from by decide)]
  rw [if_pos (by decide : (242601513195980870400:ℤ) < 260310145889907319800)]
  rw [show ((163994106501340866091:ℤ) + 163994110208004713060).tdiv 2 = 163994108354672789575 from by decide]
  rw [show (163994108354672789575:ℤ) + 1 = 163994108354672789576 from by decide]
  rw [show (22:ℕ) - 1 = 21 from rfl]
  rw [sharesGo_succ true 100000000000000000000 100000000000000000000 100000000000000000000 260310145889907319800 21 (by decide) 163994108354672789576 163994110208004713060 (by decide) (show getCost (100000000000000000000 + ((163994108354672789576:ℤ) + 163994110208004713060).tdiv 2) 100000000000000000000 100000000000000000000 = some 277258872223978137600 from by decide)]
  rw [if_neg (by decide : ¬((277258872223978137600:ℤ) < 260310145889907319800))]
  rw [show ((163994108354672789576:ℤ) + 163994110208004713060).tdiv 2 = 163994109281338751318 from by decide]
  rw [show (21:ℕ) - 1 = 20 from rfl]
  rw [sharesGo_succ true 100000000000000000000 100000000000000000000 100000000000000000000 260310145889907319800 20 (by decide) 163994108354672789576 163994109281338751318 (by decide) (show getCost (100000000000000000000 + ((163994108354672789576:ℤ) + 163994109281338751318).tdiv 2) 100000000000000000000 100000000000000000000 = some 277258872223978137600 from by decide)]
  rw [if_neg (by decide : ¬((277258872223978137600:ℤ) < 260310145889907319800))]
  rw [show ((163994108354672789576:ℤ) + 163994109281338751318).tdiv 2 = 163994108818005770447 from by decide]
  rw [show (20:ℕ) - 1 = 19 from rfl]
  rw [sharesGo_succ true 100000000000000000000 100000000000000000000 100000000000000000000 260310145889907319800 19 (by decide) 163994108354672789576 163994108818005770447 (by decide) (show getCost (100000000000000000000 + ((163994108354672789576:ℤ) + 163994108818005770447).tdiv 2) 100000000000000000000 100000000000000000000 = some 242601513195980870400 from by decide)]
  rw [if_pos (by decide : (242601513195980870400:ℤ) < 260310145889907319800)]
  rw [show ((163994108354672789576:ℤ) + 163994108818005770447).tdiv 2 = 163994108586339280011 from by decide]
  rw [show (163994108586339280011:ℤ) + 1 = 163994108586339280012 from by decide]
  rw [show (19:ℕ) - 1 = 18 from rfl]
  rw [sharesGo_succ true 100000000000000000000 100000000000000000000 100000000000000000000 260310145889907319800 18 (by decide) 163994108586339280012 163994108818005770447 (by decide) (show getCost (100000000000000000000 + ((163994108586339280012:ℤ) + 163994108818005770447).tdiv 2) 100000000000000000000 100000000000000000000 = some 277258872223978137600 from by decide)]
  rw [if_neg (by decide : ¬((277258872223978137600:ℤ) < 260310145889907319800))]
  rw [show ((163994108586339280012:ℤ) + 163994108818005770447).tdiv 2 = 163994108702172525229 from by decide]
  rw [show (18:ℕ) - 1 = 17 from rfl]
  rw [sharesGo_succ true 100000000000000000000 100000000000000000000 100000000000000000000 260310145889907319800 17 (by decide) 163994108586339280012 163994108702172525229 (by decide) (show getCost (100000000000000000000 + ((163994108586339280012:ℤ) + 163994108702172525229).tdiv 2) 100000000000000000000 100000000000000000000 = some 277258872223978137600 from by decide)]
  rw [if_neg (by decide : ¬((277258872223978137600:ℤ) < 260310145889907319800))]
  rw [show ((163994108586339280012:ℤ) + 163994108702172525229).tdiv 2 = 163994108644255902620 from by decide]
  rw [show (17:ℕ) - 1 = 16 from rfl]
  rw [sharesGo_succ true 100000000000000000000 100000000000000000000 100000000000000000000 260310145889907319800 16 (by decide) 163994108586339280012 163994108644255902620 (by decide) (show getCost (100000000000000000000 + ((163994108586339280012:ℤ) + 163994108644255902620).tdiv 2) 100000000000000000000 100000000000000000000 = some 242601513195980870400 from by decide)]
  rw [if_pos (by decide : (242601513195980870400:ℤ) < 260310145889907319800)]
  rw [show ((163994108586339280012:ℤ) + 163994108644255902620).tdiv 2 = 163994108615297591316 from by decide]
  rw [show (163994108615297591316:ℤ) + 1 = 163994108615297591317 from by decide]
  rw [show (16:ℕ) - 1 = 15 from rfl]
  rw [sharesGo_succ true 100000000000000000000 100000000000000000000 100000000000000000000 260310145889907319800 15 (by decide) 163994108615297591317 163994108644255902620 (by decide) (show getCost (100000000000000000000 + ((163994108615297591317:ℤ) + 163994108644255902620).tdiv 2) 100000000000000000000 100000000000000000000 = some 277258872223978137600 from by decide)]
  rw [if_neg (by decide : ¬((277258872223978137600:ℤ) < 260310145889907319800))]
  rw [show ((163994108615297591317:ℤ) + 163994108644255902620).tdiv 2 = 163994108629776746968 from by decide]
  rw [show (15:ℕ) - 1 = 14 from rfl]
  rw [sharesGo_succ true 100000000000000000000 100000000000000000000 100000000000000000000 260310145889907319800 14 (by decide) 163994108615297591317 163994108629776746968 (by decide) (show getCost (100000000000000000000 + ((163994108615297591317:ℤ) + 163994108629776746968).tdiv 2) 100000000000000000000 100000000000000000000 = some 277258872223978137600 from by decide)]
  rw [if_neg (by decide : ¬((277258872223978137600:ℤ) < 260310145889907319800))]
  rw [show ((163994108615297591317:ℤ) + 163994108629776746968).tdiv 2 = 163994108622537169142 from by decide]
  rw [show (14:ℕ) - 1 = 13 from rfl]
  rw [sharesGo_succ true 100000000000000000000 100000000000000000000 100000000000000000000 260310145889907319800 13 (by decide) 163994108615297591317 163994108622537169142 (by decide) (show getCost (100000000000000000000 + ((163994108615297591317:ℤ) + 163994108622537169142).tdiv 2) 100000000000000000000 100000000000000000000 = some 277258872223978137600 from by decide)]
  rw [if_neg (by decide : ¬((277258872223978137600:ℤ) < 260310145889907319800))]
  rw [show ((163994108615297591317:ℤ) + 163994108622537169142).tdiv 2 = 163994108618917380229 from by decide]
  rw [show (13:ℕ) - 1 = 12 from rfl]
  rw [sharesGo_succ true 100000000000000000000 100000000000000000000 100000000000000000000 260310145889907319800 12 (by decide) 163994108615297591317 163994108618917380229 (by decide) (show getCost (100000000000000000000 + ((163994108615297591317:ℤ) + 163994108618917380229).tdiv 2) 100000000000000000000 100000000000000000000 = some 277258872223978137600 from by decide)]
  rw [if_neg (by decide : ¬((277258872223978137600:ℤ) < 260310145889907319800))]
  rw [show ((163994108615297591317:ℤ) + 163994108618917380229).tdiv 2 = 163994108617107485773 from by decide]
  rw [show (12:ℕ) - 1 = 11 from rfl]
  rw [sharesGo_succ true 100000000000000000000 100000000000000000000 100000000000000000000 260310145889907319800 11 (by decide) 163994108615297591317 163994108617107485773 (by decide) (show getCost (100000000000000000000 + ((163994108615297591317:ℤ) + 163994108617107485773).tdiv 2) 100000000000000000000 100000000000000000000 = some 277258872223978137600 from by decide)]
  rw [if_neg (by decide : ¬((277258872223978137600:ℤ) < 260310145889907319800))]
  rw [show ((163994108615297591317:ℤ) + 163994108617107485773).tdiv 2 = 163994108616202538545 from by decide]
  rw [show (11:ℕ) - 1 = 10 from rfl]
  rw [sharesGo_succ true 100000000000000000000 100000000000000000000 100000000000000000000 260310145889907319800 10 (by decide) 163994108615297591317 163994108616202538545 (by decide) (show getCost (100000000000000000000 + ((163994108615297591317:ℤ) + 163994108616202538545).tdiv 2) 100000000000000000000 100000000000000000000 = some 242601513195980870400 from by decide)]
  rw [if_pos (by decide : (242601513195980870400:ℤ) < 260310145889907319800)]
  rw [show ((163994108615297591317:ℤ) + 163994108616202538545).tdiv 2 = 163994108615750064931 from by decide]
  rw [show (163994108615750064931:ℤ) + 1 = 163994108615750064932 from by decide]
  rw [show (10:ℕ) - 1 = 9 from rfl]
  rw [sharesGo_succ true 100000000000000000000 100000000000000000000 100000000000000000000 260310145889907319800 9 (by decide) 163994108615750064932 163994108616202538545 (by decide) (show getCost (100000000000000000000 + ((163994108615750064932:ℤ) + 163994108616202538545).tdiv 2) 100000000000000000000 100000000000000000000 = some 242601513195980870400 from by decide)]
  rw [if_pos (by decide : (242601513195980870400:ℤ) < 260310145889907319800)]
  rw [show ((163994108615750064932:ℤ) + 163994108616202538545).tdiv 2 = 163994108615976301738 from by decide]
  rw [show (163994108615976301738:ℤ) + 1 = 163994108615976301739 from by decide]
  rw [show (9:ℕ) - 1 = 8 from rfl]
  rw [sharesGo_succ true 100000000000000000000 100000000000000000000 100000000000000000000 260310145889907319800 8 (by decide) 163994108615976301739 163994108616202538545 (by decide) (show getCost (100000000000000000000 + ((163994108615976301739:ℤ) + 163994108616202538545).tdiv 2) 100000000000000000000 100000000000000000000 = some 277258872223978137600 from by decide)]
  rw [if_neg (by decide : ¬((277258872223978137600:ℤ) < 260310145889907319800))]
  rw [show ((163994108615976301739:ℤ) + 163994108616202538545).tdiv 2 = 163994108616089420142 from by decide]
  rw [show (8:ℕ) - 1 = 7 from rfl]
  rw [sharesGo_succ true 100000000000000000000 100000000000000000000 100000000000000000000 260310145889907319800 7 (by decide) 163994108615976301739 163994108616089420142 (by decide) (show getCost (100000000000000000000 + ((163994108615976301739:ℤ) + 163994108616089420142).tdiv 2) 100000000000000000000 100000000000000000000 = some 277258872223978137600 from by decide)]
  rw [if_neg (by decide : ¬((277258872223978137600:ℤ) < 260310145889907319800))]
  rw [show ((163994108615976301739:ℤ) + 163994108616089420142).tdiv 2 = 163994108616032860940 from by decide]
  rw [show (7:ℕ) - 1 = 6 from rfl]
  rw [sharesGo_succ true 100000000000000000000 100000000000000000000 100000000000000000000 260310145889907319800 6 (by decide) 163994108615976301739 163994108616032860940 (by decide) (show getCost (100000000000000000000 + ((163994108615976301739:ℤ) + 163994108616032860940).tdiv 2) 100000000000000000000 100000000000000000000 = some 242601513195980870400 from by decide)]
  rw [if_pos (by decide : (242601513195980870400:ℤ) < 260310145889907319800)]
  rw [show ((163994108615976301739:ℤ) + 163994108616032860940).tdiv 2 = 163994108616004581339 from by decide]
  rw [show (163994108616004581339:ℤ) + 1 = 163994108616004581340 from by decide]
  rw [show (6:ℕ) - 1 = 5 from rfl]
  rw [sharesGo_succ true 100000000000000000000 100000000000000000000 100000000000000000000 260310145889907319800 5 (by decide) 163994108616004581340 163994108616032860940 (by decide) (show getCost (100000000000000000000 + ((163994108616004581340:ℤ) + 163994108616032860940).tdiv 2) 100000000000000000000 100000000000000000000 = some 242601513195980870400 from by decide)]
  rw [if_pos (by decide : (242601513195980870400:ℤ) < 260310145889907319800)]
  rw [show ((163994108616004581340:ℤ) + 163994108616032860940).tdiv 2 = 163994108616018721140 from by decide]
  rw [show (163994108616018721140:ℤ) + 1 = 163994108616018721141 from by decide]
  rw [show (5:ℕ) - 1 = 4 from rfl]
  rw [sharesGo_succ true 100000000000000000000 100000000000000000000 100000000000000000000 260310145889907319800 4 (by decide) 163994108616018721141 163994108616032860940 (by decide) (show getCost (100000000000000000000 + ((163994108616018721141:ℤ) + 163994108616032860940).tdiv 2) 100000000000000000000 100000000000000000000 = some 242601513195980870400 from by decide)]
  rw [if_pos (by decide : (242601513195980870400:ℤ) < 260310145889907319800)]
  rw [show ((163994108616018721141:ℤ) + 163994108616032860940).tdiv 2 = 163994108616025791040 from by decide]
  rw [show (163994108616025791040:ℤ) + 1 = 163994108616025791041 from by decide]
  rw [show (4:ℕ) - 1 = 3 from rfl]
  rw [sharesGo_succ true 100000000000000000000 100000000000000000000 100000000000000000000 260310145889907319800 3 (by decide) 163994108616025791041 163994108616032860940 (by decide) (show getCost (100000000000000000000 + ((163994108616025791041:ℤ) + 163994108616032860940).tdiv 2) 100000000000000000000 100000000000000000000 = some 277258872223978137600 from by decide)]
  rw [if_neg (by decide : ¬((277258872223978137600:ℤ) < 260310145889907319800))]
  rw [show ((163994108616025791041:ℤ) + 163994108616032860940).tdiv 2 = 163994108616029325990 from by decide]
  rw [show (3:ℕ) - 1 = 2 from rfl]
  rw [sharesGo_succ true 100000000000000000000 100000000000000000000 100000000000000000000 260310145889907319800 2 (by decide) 163994108616025791041 163994108616029325990 (by decide) (show getCost (100000000000000000000 + ((163994108616025791041:ℤ) + 163994108616029325990).tdiv 2) 100000000000000000000 100000000000000000000 = some 277258872223978137600 from by decide)]
  rw [if_neg (by decide : ¬((277258872223978137600:ℤ) < 260310145889907319800))]
  rw [show ((163994108616025791041:ℤ) + 163994108616029325990).tdiv 2 = 163994108616027558515 from by decide]
  rw [show (2:ℕ) - 1 = 1 from rfl]
  rw [sharesGo_succ true 100000000000000000000 100000000000000000000 100000000000000000000 260310145889907319800 1 (by decide) 163994108616025791041 163994108616027558515 (by decide) (show getCost (100000000000000000000 + ((163994108616025791041:ℤ) + 163994108616027558515).tdiv 2) 100000000000000000000 100000000000000000000 = some 277258872223978137600 from by decide)]
  rw [if_neg (by decide : ¬((277258872223978137600:ℤ) < 260310145889907319800))]
  rw [show ((163994108616025791041:ℤ) + 163994108616027558515).tdiv 2 = 163994108616026674778 from by decide]
  rw [show (1:ℕ) - 1 = 0 from rfl]
  rfl

/-- Full evaluation of previewTrade on the spec's scenario. -/
theorem previewTrade_scenario :
    previewTrade (100 * 1000000000000000000) true (100 * 1000000000000000000)
      (100 * 1000000000000000000) (100 * 1000000000000000000) 50 =
      some ⟨163994108616025791041, 830208333333332522, 660416666666665044,
        606729112647383761, 500000000000000000, 99500000000000000000⟩ := by
  have hsh : calculateShares
      ((100 * 1000000000000000000 : ℤ) - ((100 * 1000000000000000000 : ℤ) * 50).tdiv 10000)
      true (100 * 1000000000000000000) (100 * 1000000000000000000)
      (100 * 1000000000000000000) = some 163994108616025791041 := by
    rw [show ((100 * 1000000000000000000 : ℤ) -
          ((100 * 1000000000000000000 : ℤ) * 50).tdiv 10000) =
        99500000000000000000 from by decide,
      show ((100 : ℤ) * 1000000000000000000) = 100000000000000000000 from by decide]
    exact scenario_shares
  rw [previewTrade]
  simp only [hsh, Option.map_some']
  decide

/-- C3 counterexample: in the spec's scenario (payAmount = 100·10^18,
qYes = qNo = b = 100·10^18, feeRate = 50 bps) previewTrade returns
expectedShares = 163994108616025791041, which is NOT strictly less than
netAmount = 99.5·10^18. -/
theorem claim_C3_counterexample :
    (previewTrade (100 * 1000000000000000000) true (100 * 1000000000000000000)
        (100 * 1000000000000000000) (100 * 1000000000000000000) 50).map
      (fun tp => tp.expectedShares) = some 163994108616025791041 ∧
    (previewTrade (100 * 1000000000000000000) true (100 * 1000000000000000000)
        (100 * 1000000000000000000) (100 * 1000000000000000000) 50).map
      (fun tp => tp.netAmount) = some 99500000000000000000 ∧
    ¬((163994108616025791041 : ℤ) < 99500000000000000000) := by
  rw [previewTrade_scenario]
  exact ⟨rfl, rfl, by decide⟩

/-- C3 (amended): in that scenario previewTrade returns fee = 0.5·10^18 and
netAmount = 99.5·10^18 as claimed, but expectedShares =
163994108616025791041 (≈ 164 units), which is strictly GREATER than
netAmount: the coarse log2/exp approximations undervalue the cost increase,
so the solver grants more than one share per unit paid. -/
theorem claim_C3_amended :
    (previewTrade (100 * 1000000000000000000) true (100 * 1000000000000000000)
        (100 * 1000000000000000000) (100 * 1000000000000000000) 50).map
      (fun tp => tp.fee) = some 500000000000000000 ∧
    (previewTrade (100 * 1000000000000000000) true (100 * 1000000000000000000)
        (100 * 1000000000000000000) (100 * 1000000000000000000) 50).map
      (fun tp => tp.netAmount) = some 99500000000000000000 ∧
    (previewTrade (100 * 1000000000000000000) true (100 * 1000000000000000000)
        (100 * 1000000000000000000) (100 * 1000000000000000000) 50).map
      (fun tp => tp.expectedShares) = some 163994108616025791041 ∧
    (99500000000000000000 : ℤ) < 163994108616025791041 := by
  rw [previewTrade_scenario]
  exact ⟨rfl, rfl, rfl, by decide⟩

/-- C4: the fractional correction of log2 adds 0.5·10^18 (not 0.585·10^18)
for remainders ≥ 1.5·10^18 and 0.32·10^18 (not 0.322·10^18) for remainders
≥ 1.25·10^18 — the code contradicts its own inline comments
(`log2(1.5) ≈ 0.585`, `log2(1.25) ≈ 0.322`), which the claim follows. -/
theorem claim_C4_log2_fraction_values :
    log2 (15 * 100000000000000000) = some (5 * 100000000000000000) ∧
    log2 (125 * 10000000000000000) = some (32 * 10000000000000000) ∧
    (5 * 100000000000000000 : ℤ) ≠ 585000000000000000 ∧
    (32 * 10000000000000000 : ℤ) ≠ 322000000000000000 :=
  ⟨by decide, by decide, by decide, by decide⟩

/-- C5: holding b > 0 fixed, getCost is monotonically non-decreasing in qYes
and, symmetrically, in qNo (special case qYes = qNo = 0 included). -/
theorem claim_C5_cost_monotone (qYes qYes' qNo b : ℤ)
    (h0 : 0 ≤ qYes) (h1 : qYes ≤ qYes') (h2 : 0 ≤ qNo) (hb : 0 < b) :
    (∀ c c', getCost qYes qNo b = some c → getCost qYes' qNo b = some c' → c ≤ c') ∧
    (∀ c c', getCost qNo qYes b = some c → getCost qNo qYes' b = some c' → c ≤ c') := by
  constructor
  · intro c c' e1 e2
    exact getCost_mono_yes h0 h1 h2 hb e1 e2
  · intro c c' e1 e2
    exact getCost_mono_no h0 h1 h2 hb e1 e2

/-- Witness for C5 at qYes = 0 ≤ qYes' = 1, qNo = 0, b = 1. -/
theorem claim_C5_witness :
    (∀ c c', getCost 0 0 1 = some c → getCost 1 0 1 = some c' → c ≤ c') ∧
    (∀ c c', getCost 0 0 1 = some c → getCost 0 1 1 = some c' → c ≤ c') :=
  claim_C5_cost_monotone 0 1 0 1 (by decide) (by decide) (by decide) (by decide)

/-- C6: calculateB is monotonically non-decreasing in totalVolume and in
txCount (for configuration constants with b0 > 0, alpha ≥ 0, beta ≥ 0,
V0 > 0), and returns b0 at totalVolume = txCount = 0. -/
theorem claim_C6_calculateB_monotone (p : LMSRParams) (hb0 : 0 < p.b0) (ha : 0 ≤ p.alpha)
    (hbeta : 0 ≤ p.beta) (hV : 0 < p.V0) (tv tv' tc tc' : ℤ)
    (h0 : 0 ≤ tv) (h1 : tv ≤ tv') (h2 : 0 ≤ tc) (h3 : tc ≤ tc') :
    calculateB p 0 0 = some p.b0 ∧
    (∀ v v', calculateB p tv tc = some v → calculateB p tv' tc = some v' → v ≤ v') ∧
    (∀ v v', calculateB p tv tc = some v → calculateB p tv tc' = some v' → v ≤ v') := by
  refine ⟨calculateB_zero p, ?_, ?_⟩
  · intro v v' e1 e2
    exact calculateB_mono_vol hb0 ha hbeta hV h0 h1 h2 e1 e2
  · intro v v' e1 e2
    exact calculateB_mono_tx hb0 ha hbeta hV h0 h2 h3 e1 e2

/-- Witness for C6 at the source's `DEFAULT_LMSR_PARAMS`, volumes
0 ≤ 10^18 and transaction counts 0 ≤ 1. -/
theorem claim_C6_witness :
    calculateB DEFAULT_LMSR_PARAMS 0 0 = some DEFAULT_LMSR_PARAMS.b0 ∧
    (∀ v v', calculateB DEFAULT_LMSR_PARAMS 0 0 = some v →
      calculateB DEFAULT_LMSR_PARAMS 1000000000000000000 0 = some v' → v ≤ v') ∧
    (∀ v v', calculateB DEFAULT_LMSR_PARAMS 0 0 = some v →
      calculateB DEFAULT_LMSR_PARAMS 0 1 = some v' → v ≤ v') :=
  claim_C6_calculateB_monotone DEFAULT_LMSR_PARAMS (by decide) (by decide) (by decide)
    (by decide) 0 1000000000000000000 0 1 (by decide) (by decide) (by decide) (by decide)

theorem sharesGo_step_none (isYes : Bool) (qY qN b target : ℤ) (f : ℕ) (low high : ℤ)
    (h : low < high)
    (hc : getCost (if isYes then qY + (low + high).tdiv 2 else qY)
        (if isYes then qN else qN + (low + high).tdiv 2) b = none) :
    sharesGo isYes qY qN b target (f + 1) low high = none := by
  rw [sharesGo, if_pos h]
  simp only [hc]

theorem sharesGo_symm (q b target : ℤ) : ∀ (f : ℕ) (low high : ℤ),
    sharesGo true q q b target f low high = sharesGo false q q b target f low high := by
  intro f
  induction f with
  | zero => intro low high; rfl
  | succ f ih =>
    intro low high
    by_cases h : low < high
    · cases hgc : getCost (q + (low + high).tdiv 2) q b with
      | none =>
        rw [sharesGo_step_none true q q b target f low high h hgc,
          sharesGo_step_none false q q b target f low high h
            ((getCost_comm q (q + (low + high).tdiv 2) b).trans hgc)]
      | some c =>
        rw [sharesGo_step true q q b target f low high h hgc,
          sharesGo_step false q q b target f low high h
            ((getCost_comm q (q + (low + high).tdiv 2) b).trans hgc)]
        by_cases hcc : c < target
        · rw [if_pos hcc, if_pos hcc, ih]
        · rw [if_neg hcc, if_neg hcc, ih]
    · rw [sharesGo, if_neg h, sharesGo, if_neg h]

/-- C7: when the two outstanding quantities are equal, buying YES and buying
NO yield identical share counts. -/
theorem claim_C7_symmetry (payAmount q b : ℤ) (hp : 0 < payAmount) (hq : 0 ≤ q)
    (hb : 0 < b) :
    calculateShares payAmount true q q b = calculateShares payAmount false q q b := by
  rw [calculateShares, calculateShares]
  cases hgc : getCost q q b with
  | none => simp only [Option.none_bind]
  | some c =>
    simp only [Option.some_bind]
    exact sharesGo_symm q b (c + payAmount) 50 0 (payAmount * 10)

/-- Witness for C7 at payAmount = 1, q = 0, b = 1. -/
theorem claim_C7_witness :
    calculateShares 1 true 0 0 1 = calculateShares 1 false 0 0 1 :=
  claim_C7_symmetry 1 0 1 (by decide) (by decide) (by decide)

/-- C8: ln raises a domain error (none) iff its argument is ≤ 0, returns
normally for every x > 0, and returns exactly 0 for x = 10^18. -/
theorem claim_C8_ln_domain (x : ℤ) :
    (ln x = none ↔ x ≤ 0) ∧ (0 < x → ∃ v, ln x = some v) ∧
    ln 1000000000000000000 = some 0 :=
  ⟨ln_eq_none_iff, fun h => ln_total h, ln_one_val⟩

/-- Witness for C8 at x = 7. -/
theorem claim_C8_witness :
    (ln 7 = none ↔ (7:ℤ) ≤ 0) ∧ ((0:ℤ) < 7 → ∃ v, ln 7 = some v) ∧
    ln 1000000000000000000 = some 0 :=
  claim_C8_ln_domain 7

/-- C9: on valid inputs expApprox only sees non-negative arguments and
returns ≥ 10^18, the sum of exponentials is ≥ 2·10^18 (so getPrice's
zero-sum fallback is unreachable), and getCost never raises. -/
theorem claim_C9_no_domain_error (qYes qNo b : ℤ)
    (h1 : 0 ≤ qYes) (h2 : 0 ≤ qNo) (hb : 0 < b) :
    0 ≤ (qYes * 1000000000000000000).tdiv b ∧
    1000000000000000000 ≤ expApprox ((qYes * 1000000000000000000).tdiv b) ∧
    2 * 1000000000000000000 ≤ expApprox ((qYes * 1000000000000000000).tdiv b) +
      expApprox ((qNo * 1000000000000000000).tdiv b) ∧
    expApprox ((qYes * 1000000000000000000).tdiv b) +
      expApprox ((qNo * 1000000000000000000).tdiv b) ≠ 0 ∧
    (∃ c, getCost qYes qNo b = some c) := by
  have a1 : 0 ≤ (qYes * 1000000000000000000).tdiv b :=
    tdivNonneg (mul_nonneg h1 (by omega)) hb.le
  have hs := sumExp_ge h1 h2 hb
  exact ⟨a1, expApprox_ge a1, hs, by omega, getCost_total h1 h2 hb⟩

/-- Witness for C9 at qYes = 1, qNo = 2, b = 3. -/
theorem claim_C9_witness :
    0 ≤ ((1:ℤ) * 1000000000000000000).tdiv 3 ∧
    1000000000000000000 ≤ expApprox (((1:ℤ) * 1000000000000000000).tdiv 3) ∧
    2 * 1000000000000000000 ≤ expApprox (((1:ℤ) * 1000000000000000000).tdiv 3) +
      expApprox (((2:ℤ) * 1000000000000000000).tdiv 3) ∧
    expApprox (((1:ℤ) * 1000000000000000000).tdiv 3) +
      expApprox (((2:ℤ) * 1000000000000000000).tdiv 3) ≠ 0 ∧
    (∃ c, getCost 1 2 3 = some c) :=
  claim_C9_no_domain_error 1 2 3 (by decide) (by decide) (by decide)

/-- C10: validateState returns true exactly when qYes ≥ 0, qNo ≥ 0 and
b > 0 — the tolerance check never fails on sign-valid inputs, the
truncating divisions losing at most 1 of the 10^18 sum. -/
theorem claim_C10_validateState_iff (qYes qNo b : ℤ) :
    validateState qYes qNo b = true ↔ 0 ≤ qYes ∧ 0 ≤ qNo ∧ 0 < b := by
  unfold validateState
  by_cases h : qYes < 0 ∨ qNo < 0 ∨ b ≤ 0
  · rw [if_pos h]
    simp only [Bool.false_eq_true, false_iff]
    omega
  · rw [if_neg h]
    have hb : 0 < b := by omega
    have hbounds := getPrice_sum_bounds (show (0:ℤ) ≤ qYes by omega)
      (show (0:ℤ) ≤ qNo by omega) hb
    simp only [decide_eq_true_eq]
    constructor
    · intro _
      exact ⟨by omega, by omega, hb⟩
    · intro _
      rw [abs_lt]
      constructor
      · omega
      · omega

/-- Witness for C10 at qYes = 0, qNo = 0, b = 1. -/
theorem claim_C10_witness :
    validateState 0 0 1 = true ↔ (0:ℤ) ≤ 0 ∧ (0:ℤ) ≤ 0 ∧ (0:ℤ) < 1 :=
  claim_C10_validateState_iff 0 0 1

end LMSRPricer
